import Mathlib

/-!
Verification of the puvi-backend accounting logic.

The Python handlers are embedded shallowly: each SQL table relevant to the
claims becomes a Lean structure, each handler a pure function from state to
state (transactions that roll back on failure return the original state).
All quantities are rationals, matching the backend's use of `Decimal`
arithmetic during calculation.
-/

set_option maxHeartbeats 1000000

namespace Puvi

/-- One row of the `inventory` table (columns used by the handlers). -/
structure InventoryRow where
  inventory_id : Nat
  material_id : Option Nat
  oil_type : Option String
  is_bulk_oil : Bool
  source_type : Option String
  source_reference_id : Option Nat
  opening_stock : ℚ
  closing_stock : ℚ
  purchases : ℚ
  consumption : ℚ
  weighted_avg_cost : ℚ
  last_updated : Nat
deriving DecidableEq

/-- The query `SELECT ... FROM inventory WHERE material_id = %s` followed
by `fetchone`:
the first row of the list whose `material_id` matches. -/
def findInventoryRow (material_id : Nat) (rows : List InventoryRow) :
    Option InventoryRow :=
  rows.find? (fun r => decide (r.material_id = some material_id))

/-- Fresh primary key for an inserted inventory row. -/
def freshInventoryId (rows : List InventoryRow) : Nat :=
  (rows.map (·.inventory_id)).foldr max 0 + 1

/-- The row inserted by `update_inventory` when no row exists for the material
(`INSERT INTO inventory ... VALUES (%s, 0, %s, %s, %s, %s)`):
`opening_stock = 0`, `purchases = closing_stock = qty`,
`weighted_avg_cost = landed_cost_per_unit`. -/
def newInventoryRow (id material_id : Nat) (qty cost : ℚ) (day : Nat) :
    InventoryRow :=
  { inventory_id := id, material_id := some material_id, oil_type := none,
    is_bulk_oil := false, source_type := none, source_reference_id := none,
    opening_stock := 0, closing_stock := qty, purchases := qty,
    consumption := 0, weighted_avg_cost := cost, last_updated := day }

/-- Function `update_inventory` from `inventory_utils.py`: fetch the row for the
material; if present, recompute the weighted average
(`(old_stock*old_avg + qty*cost) / (old_stock+qty)` guarded by
`new_stock > 0`, else the incoming cost) and update
`closing_stock`, `purchases`; otherwise insert a fresh row. -/
def update_inventory (material_id : Nat) (qty cost : ℚ) (day : Nat)
    (rows : List InventoryRow) : List InventoryRow :=
  match findInventoryRow material_id rows with
  | some r =>
      let new_stock := r.closing_stock + qty
      let new_avg :=
        if new_stock > 0 then
          (r.closing_stock * r.weighted_avg_cost + qty * cost) / new_stock
        else cost
      rows.map (fun x =>
        if x.inventory_id = r.inventory_id then
          { x with closing_stock := new_stock, weighted_avg_cost := new_avg,
                   purchases := x.purchases + qty, last_updated := day }
        else x)
  | none =>
      rows ++ [newInventoryRow (freshInventoryId rows) material_id qty cost day]

/-- A sequence of `Receive` calls against one material, oldest first. -/
def receiveSeq (material_id : Nat) (l : List (ℚ × ℚ))
    (rows : List InventoryRow) : List InventoryRow :=
  l.foldl (fun acc qc => update_inventory material_id qc.1 qc.2 0 acc) rows

/-- Seed consumption from `add_batch`
(`UPDATE inventory SET closing_stock = closing_stock - %s,
consumption = consumption + %s WHERE material_id = %s`):
every row of the material is decremented, `consumption` incremented. -/
def batchSeedConsume (material_id : Nat) (qty : ℚ) (day : Nat)
    (rows : List InventoryRow) : List InventoryRow :=
  rows.map (fun r =>
    if r.material_id = some material_id then
      { r with closing_stock := r.closing_stock - qty,
               consumption := r.consumption + qty, last_updated := day }
    else r)

/-- The bulk-oil row selected by `add_batch`
(`WHERE material_id IS NULL AND oil_type = %s AND is_bulk_oil = true AND
source_type = 'extraction' ORDER BY inventory_id DESC LIMIT 1`). -/
def findBulkOilRow (oil_type : String) (rows : List InventoryRow) :
    Option InventoryRow :=
  (rows.filter (fun r => decide (r.material_id = none) &&
      decide (r.oil_type = some oil_type) && r.is_bulk_oil &&
      decide (r.source_type = some "extraction"))).foldl
    (fun acc r => match acc with
      | none => some r
      | some b => if b.inventory_id ≤ r.inventory_id then some r else some b)
    none

/-- Oil receipt from `add_batch`: if a bulk-oil row exists, recompute the
weighted average and set `closing_stock` — the `UPDATE` names only
`closing_stock`, `weighted_avg_cost`, `last_updated` (`purchases` is NOT
incremented); otherwise insert a row naming only `oil_type, closing_stock,
weighted_avg_cost, last_updated, source_type, source_reference_id,
is_bulk_oil` (the remaining columns keep their table default of zero). -/
def batchOilReceive (oil_type : String) (oil_yield oil_cost : ℚ) (day : Nat)
    (batch_id : Nat) (rows : List InventoryRow) : List InventoryRow :=
  match findBulkOilRow oil_type rows with
  | some r =>
      let new_stock := r.closing_stock + oil_yield
      let new_avg :=
        if new_stock > 0 then
          (r.closing_stock * r.weighted_avg_cost + oil_yield * oil_cost) /
            new_stock
        else oil_cost
      rows.map (fun x =>
        if x.inventory_id = r.inventory_id then
          { x with closing_stock := new_stock, weighted_avg_cost := new_avg,
                   last_updated := day }
        else x)
  | none =>
      rows ++ [{ inventory_id := freshInventoryId rows, material_id := none,
                 oil_type := some oil_type, is_bulk_oil := true,
                 source_type := some "extraction",
                 source_reference_id := some batch_id,
                 opening_stock := 0, closing_stock := oil_yield,
                 purchases := 0, consumption := 0,
                 weighted_avg_cost := oil_cost, last_updated := day }]

/-- The per-row stock-conservation invariant of the spec. -/
def stockInvariant (r : InventoryRow) : Prop :=
  r.closing_stock = r.opening_stock + r.purchases - r.consumption

instance (r : InventoryRow) : Decidable (stockInvariant r) := by
  unfold stockInvariant; infer_instance

/-- An abstract ledger call: a purchase-style receive (`update_inventory`)
or a batch-style consume. -/
inductive LedgerOp
  | receive (qty cost : ℚ)
  | consume (qty : ℚ)
deriving DecidableEq

def applyLedgerOp (material_id : Nat) (rows : List InventoryRow) :
    LedgerOp → List InventoryRow
  | .receive q c => update_inventory material_id q c 0 rows
  | .consume q => batchSeedConsume material_id q 0 rows

def receivedTotal (ops : List LedgerOp) : ℚ :=
  (ops.map (fun o => match o with | .receive q _ => q | .consume _ => 0)).sum

def consumedTotal (ops : List LedgerOp) : ℚ :=
  (ops.map (fun o => match o with | .receive _ _ => 0 | .consume q => q)).sum

/-! ### Blending (`modules/blending.py`, `create_blend`) -/

structure BlendComponentInput where
  oil_type : String
  source_type : String
  source_batch_id : Option Nat
  percentage : ℚ
  cost_per_kg : ℚ
deriving DecidableEq

structure BlendInput where
  blend_description : String
  blend_date : Nat
  total_quantity : ℚ
  components : List BlendComponentInput
deriving DecidableEq

structure BlendRecord where
  blend_id : Nat
  total_quantity : ℚ
  weighted_avg_cost : ℚ
  blend_date : Nat
deriving DecidableEq

structure BlendComponentRecord where
  blend_id : Nat
  oil_type : String
  source_type : String
  source_batch_id : Option Nat
  quantity_used : ℚ
  percentage : ℚ
  cost_per_unit : ℚ
deriving DecidableEq

structure BlendState where
  inventory : List InventoryRow
  blend_batches : List BlendRecord
  blend_batch_components : List BlendComponentRecord
deriving DecidableEq

inductive BlendErr
  | validationError
deriving DecidableEq

def sumPercentages (comps : List BlendComponentInput) : ℚ :=
  (comps.map (·.percentage)).sum

/-- Computes `quantity_used = total_quantity * percentage / 100`. -/
def componentQty (total_quantity : ℚ) (c : BlendComponentInput) : ℚ :=
  total_quantity * (c.percentage / 100)

/-- Computes `weighted_avg_cost = total_cost / total_quantity if total_quantity > 0
else 0`, `total_cost = Σ qty_used * cost_per_kg`. -/
def blendWeightedAvgCost (inp : BlendInput) : ℚ :=
  let total_cost := (inp.components.map
    (fun c => componentQty inp.total_quantity c * c.cost_per_kg)).sum
  if inp.total_quantity > 0 then total_cost / inp.total_quantity else 0

/-- SQL `=` on nullable columns: true only when both sides are non-NULL and
equal. -/
def optEqSql (a b : Option Nat) : Bool :=
  match a, b with
  | some x, some y => x == y
  | _, _ => false

/-- The `WHERE` clause (minus the stock guard) of the per-component
inventory deduction in `create_blend`, by `source_type`. -/
def blendRowMatches (c : BlendComponentInput) (r : InventoryRow) : Bool :=
  if c.source_type = "extraction" then
    optEqSql r.source_reference_id c.source_batch_id &&
      decide (r.source_type = some "extraction") &&
      decide (r.oil_type = some c.oil_type)
  else if c.source_type = "blended" then
    optEqSql r.source_reference_id c.source_batch_id &&
      decide (r.source_type = some "blended")
  else if c.source_type = "outsourced" then
    optEqSql (some r.inventory_id) c.source_batch_id
  else false

/-- The guarded `UPDATE ... AND closing_stock >= %s` applied to one row:
a row that matches but lacks stock is left unchanged. -/
def blendConsumeRow (day : Nat) (qty : ℚ) (c : BlendComponentInput)
    (r : InventoryRow) : InventoryRow :=
  if blendRowMatches c r = true ∧ qty ≤ r.closing_stock then
    { r with closing_stock := r.closing_stock - qty,
             consumption := r.consumption + qty, last_updated := day }
  else r

def blendConsumeComponent (day : Nat) (total_quantity : ℚ)
    (c : BlendComponentInput) (rows : List InventoryRow) :
    List InventoryRow :=
  rows.map (blendConsumeRow day (componentQty total_quantity c) c)

/-- Evaluates `oil_names if len(oil_types) == 1 else 'Mixed'` for the new blend's
inventory row. -/
def blendInventoryOilType (comps : List BlendComponentInput) : String :=
  match (comps.map (·.oil_type)).dedup with
  | [t] => t
  | _ => "Mixed"

def freshBlendId (blends : List BlendRecord) : Nat :=
  (blends.map (·.blend_id)).foldr max 0 + 1

/-- The inventory row inserted for the new blend: `opening_stock` and
`closing_stock` are both `total_quantity`; `purchases`/`consumption` keep
their table default of zero (the `INSERT` does not name them). -/
def newBlendInventoryRow (inp : BlendInput) (blend_id : Nat)
    (rows : List InventoryRow) : InventoryRow :=
  { inventory_id := freshInventoryId rows, material_id := none,
    oil_type := some (blendInventoryOilType inp.components),
    is_bulk_oil := true, source_type := some "blended",
    source_reference_id := some blend_id,
    opening_stock := inp.total_quantity,
    closing_stock := inp.total_quantity,
    purchases := 0, consumption := 0,
    weighted_avg_cost := blendWeightedAvgCost inp,
    last_updated := inp.blend_date }

/-- Handler `create_blend`: reject fewer than 2 components, or component
percentages off 100 by more than 0.01; otherwise insert the blend row,
insert each component row and run its guarded inventory deduction, then
insert the new blend inventory row.  The handler raises no error in this
region, so the transaction always commits. -/
def create_blend (st : BlendState) (inp : BlendInput) :
    BlendState × Except BlendErr Nat :=
  if inp.components.length < 2 then (st, .error .validationError)
  else if |sumPercentages inp.components - 100| > 1 / 100 then
    (st, .error .validationError)
  else
    let blend_id := freshBlendId st.blend_batches
    let rows1 := inp.components.foldl
      (fun acc c => blendConsumeComponent inp.blend_date inp.total_quantity
        c acc) st.inventory
    ({ inventory := rows1 ++ [newBlendInventoryRow inp blend_id rows1],
       blend_batches := st.blend_batches ++
         [{ blend_id := blend_id, total_quantity := inp.total_quantity,
            weighted_avg_cost := blendWeightedAvgCost inp,
            blend_date := inp.blend_date }],
       blend_batch_components := st.blend_batch_components ++
         inp.components.map (fun c =>
           { blend_id := blend_id, oil_type := c.oil_type,
             source_type := c.source_type,
             source_batch_id := c.source_batch_id,
             quantity_used := componentQty inp.total_quantity c,
             percentage := c.percentage,
             cost_per_unit := c.cost_per_kg }) },
     .ok blend_id)

/-! ### By-product sales (`puvi-backend/modules/material_sales.py`) -/

/-- One row of `oil_cake_inventory`. -/
structure OilCakeLot where
  cake_inventory_id : Nat
  batch_id : Nat
  oil_type : String
  quantity_produced : ℚ
  quantity_remaining : ℚ
  estimated_rate : ℚ
  production_date : Nat
deriving DecidableEq

/-- One row of `batch` (columns used by the sale handler). -/
structure Batch where
  batch_id : Nat
  oil_type : String
  production_date : Nat
  oil_yield : ℚ
  total_production_cost : ℚ
  net_oil_cost : ℚ
  oil_cost_per_kg : ℚ
  oil_cake_yield : ℚ
  cake_estimated_rate : ℚ
  cake_sold_quantity : ℚ
  cake_actual_rate : ℚ
  sludge_yield : ℚ
  sludge_estimated_rate : ℚ
  sludge_sold_quantity : ℚ
  sludge_actual_rate : ℚ
deriving DecidableEq

/-- One row of `oil_cake_sales`. -/
structure SaleRecord where
  sale_id : Nat
  sale_date : Nat
  buyer_name : String
  oil_type : Option String
  grade : String
  quantity_sold : ℚ
  sale_rate : ℚ
  total_amount : ℚ
  transport_cost : ℚ
  net_rate : ℚ
deriving DecidableEq

/-- One row of `oil_cake_sale_allocations`. -/
structure SaleAllocationRecord where
  sale_id : Nat
  batch_id : Nat
  quantity_allocated : ℚ
  original_estimate_rate : ℚ
  actual_sale_rate : ℚ
  cost_adjustment_per_kg : ℚ
  oil_cost_adjustment : ℚ
deriving DecidableEq

structure SalesState where
  cake_lots : List OilCakeLot
  batches : List Batch
  sales : List SaleRecord
  allocations : List SaleAllocationRecord
deriving DecidableEq

/-- The JSON body of `add_material_sale` after the required-field check. -/
structure SaleInput where
  sale_date : Nat
  buyer_name : String
  quantity_sold : ℚ
  sale_rate : ℚ
  byproduct_type : String
  oil_type : Option String
  transport_cost : ℚ
deriving DecidableEq

inductive SaleErr
  | validationError
  | insufficientStock
deriving DecidableEq

def findBatch (batch_id : Nat) (batches : List Batch) : Option Batch :=
  batches.find? (fun b => decide (b.batch_id = batch_id))

/-- One entry of the `available_batches` list built by the handler. -/
structure AvailLot where
  inventory_id : Nat
  batch_id : Nat
  quantity_remaining : ℚ
  estimated_rate : ℚ
  oil_type : String
  production_date : Nat
deriving DecidableEq

/-- SQL `(%s IS NULL OR b.oil_type = %s)`. -/
def oilFilterMatch (filt : Option String) (t : String) : Bool :=
  match filt with
  | none => true
  | some f => t == f

/-- The oil-cake branch: `oil_cake_inventory JOIN batch` with
`quantity_remaining > 0` and the optional oil-type filter. -/
def cakeAvailUnsorted (s : SalesState) (filt : Option String) :
    List AvailLot :=
  s.cake_lots.filterMap (fun l =>
    match findBatch l.batch_id s.batches with
    | some b =>
        if (0 : ℚ) < l.quantity_remaining ∧
            oilFilterMatch filt b.oil_type = true
        then some { inventory_id := l.cake_inventory_id,
                    batch_id := l.batch_id,
                    quantity_remaining := l.quantity_remaining,
                    estimated_rate := l.estimated_rate,
                    oil_type := b.oil_type,
                    production_date := l.production_date }
        else none
    | none => none)

/-- The sludge branch: derived from `batch` with
`sludge_yield > 0 AND sludge_yield - COALESCE(sludge_sold_quantity,0) > 0`. -/
def sludgeAvailUnsorted (s : SalesState) (filt : Option String) :
    List AvailLot :=
  s.batches.filterMap (fun b =>
    if 0 < b.sludge_yield ∧
        0 < b.sludge_yield - b.sludge_sold_quantity ∧
        oilFilterMatch filt b.oil_type = true
    then some { inventory_id := b.batch_id, batch_id := b.batch_id,
                quantity_remaining := b.sludge_yield - b.sludge_sold_quantity,
                estimated_rate := b.sludge_estimated_rate,
                oil_type := b.oil_type,
                production_date := b.production_date }
    else none)

/-- Stable insertion for `ORDER BY production_date ASC`. -/
def insertByDate (x : AvailLot) : List AvailLot → List AvailLot
  | [] => [x]
  | y :: ys =>
      if x.production_date < y.production_date then x :: y :: ys
      else y :: insertByDate x ys

def sortByDate (l : List AvailLot) : List AvailLot :=
  l.foldl (fun acc x => insertByDate x acc) []

/-- Ascending production-date order (the `ORDER BY` of the FIFO query). -/
def dateLe (a b : AvailLot) : Prop :=
  a.production_date ≤ b.production_date

/-- The FIFO-ordered `available_batches` list the handler walks. -/
def availableLots (s : SalesState) (inp : SaleInput) : List AvailLot :=
  if inp.byproduct_type = "oil_cake" then
    sortByDate (cakeAvailUnsorted s inp.oil_type)
  else if inp.byproduct_type = "sludge" then
    sortByDate (sludgeAvailUnsorted s inp.oil_type)
  else []

def updateCakeLot (id : Nat) (f : OilCakeLot → OilCakeLot)
    (lots : List OilCakeLot) : List OilCakeLot :=
  lots.map (fun l => if l.cake_inventory_id = id then f l else l)

def updateBatch (id : Nat) (f : Batch → Batch) (bs : List Batch) :
    List Batch :=
  bs.map (fun b => if b.batch_id = id then f b else b)

/-- The per-allocation inventory updates: oil cake decrements the cake lot
and bumps the batch's `cake_sold_quantity`/`cake_actual_rate`; sludge bumps
the batch's sludge columns. -/
def applyAllocationInventory (btype : String) (lot : AvailLot)
    (allocation_qty sale_rate : ℚ) (s : SalesState) : SalesState :=
  if btype = "oil_cake" then
    { s with
      cake_lots := updateCakeLot lot.inventory_id
        (fun l => { l with
          quantity_remaining := l.quantity_remaining - allocation_qty })
        s.cake_lots,
      batches := updateBatch lot.batch_id
        (fun b => { b with
          cake_sold_quantity := b.cake_sold_quantity + allocation_qty,
          cake_actual_rate := sale_rate }) s.batches }
  else
    { s with
      batches := updateBatch lot.batch_id
        (fun b => { b with
          sludge_sold_quantity := b.sludge_sold_quantity + allocation_qty,
          sludge_actual_rate := sale_rate }) s.batches }

/-- The retroactive cost update: re-read the batch, replace the estimated
by-product revenue of the sold portion by actual revenue, and store
`net_oil_cost = total_cost - cake_rev - sludge_rev + adjustment`,
`oil_cost_per_kg = net_oil_cost / oil_yield` (0 when `oil_yield = 0`). -/
def adjustBatchOilCost (btype : String) (allocation_qty sale_rate : ℚ)
    (batch_id : Nat) (s : SalesState) : SalesState :=
  match findBatch batch_id s.batches with
  | none => s
  | some bd =>
      let adjustment :=
        if btype = "oil_cake" then
          bd.oil_cake_yield * bd.cake_estimated_rate -
            (allocation_qty * sale_rate +
              (bd.oil_cake_yield - allocation_qty) * bd.cake_estimated_rate)
        else
          bd.sludge_yield * bd.sludge_estimated_rate -
            (allocation_qty * sale_rate +
              (bd.sludge_yield - allocation_qty) * bd.sludge_estimated_rate)
      let new_net := bd.total_production_cost -
        bd.oil_cake_yield * bd.cake_estimated_rate -
        bd.sludge_yield * bd.sludge_estimated_rate + adjustment
      let new_per_kg := if bd.oil_yield > 0 then new_net / bd.oil_yield else 0
      { s with
        batches := updateBatch batch_id
          (fun b => { b with net_oil_cost := new_net,
                             oil_cost_per_kg := new_per_kg }) s.batches }

/-- One element of the handler's returned `allocations` list. -/
structure AllocOut where
  batch_id : Nat
  quantity : ℚ
  adjustment : ℚ
deriving DecidableEq

/-- One iteration's state changes: insert the allocation record, apply the
inventory updates for the lot's type, then retroactively adjust the owning
batch's oil cost. -/
def allocStep (btype : String) (sale_id : Nat) (sale_rate : ℚ)
    (lot : AvailLot) (allocation_qty : ℚ) (s : SalesState) : SalesState :=
  let cost_adjustment := allocation_qty * lot.estimated_rate -
    allocation_qty * sale_rate
  let s1 := { s with allocations := s.allocations ++
    [{ sale_id := sale_id, batch_id := lot.batch_id,
       quantity_allocated := allocation_qty,
       original_estimate_rate := lot.estimated_rate,
       actual_sale_rate := sale_rate,
       cost_adjustment_per_kg := lot.estimated_rate - sale_rate,
       oil_cost_adjustment := cost_adjustment }] }
  let s2 := applyAllocationInventory btype lot allocation_qty sale_rate s1
  adjustBatchOilCost btype allocation_qty sale_rate lot.batch_id s2

/-- The FIFO allocation loop over `available_batches`. -/
def allocateLoop (btype : String) (sale_id : Nat) (sale_rate : ℚ) :
    List AvailLot → ℚ → SalesState → SalesState × List AllocOut
  | [], _, s => (s, [])
  | lot :: rest, remaining, s =>
      if remaining ≤ 0 then (s, [])
      else
        let allocation_qty := min remaining lot.quantity_remaining
        let rec_result := allocateLoop btype sale_id sale_rate rest
          (remaining - allocation_qty)
          (allocStep btype sale_id sale_rate lot allocation_qty s)
        (rec_result.1,
         { batch_id := lot.batch_id, quantity := allocation_qty,
           adjustment := allocation_qty * lot.estimated_rate -
             allocation_qty * sale_rate } :: rec_result.2)

def freshSaleId (sales : List SaleRecord) : Nat :=
  (sales.map (·.sale_id)).foldr max 0 + 1

/-- The `INSERT INTO oil_cake_sales` step of `add_material_sale`. -/
def saleInsert (s : SalesState) (inp : SaleInput) : SalesState :=
  { s with sales := s.sales ++
    [{ sale_id := freshSaleId s.sales, sale_date := inp.sale_date,
       buyer_name := inp.buyer_name,
       oil_type := match availableLots s inp with
         | l :: _ => some l.oil_type
         | [] => inp.oil_type,
       grade := inp.byproduct_type,
       quantity_sold := inp.quantity_sold, sale_rate := inp.sale_rate,
       total_amount := inp.quantity_sold * inp.sale_rate,
       transport_cost := inp.transport_cost,
       net_rate := inp.sale_rate -
         inp.transport_cost / inp.quantity_sold }] }

/-- Handler `add_material_sale`: validate quantity, load the FIFO lot list, reject
`Σ quantity_remaining < quantity_to_sell` with a rollback, else insert the
sale record and run the allocation loop. -/
def add_material_sale (s : SalesState) (inp : SaleInput) :
    SalesState × Except SaleErr (List AllocOut) :=
  if inp.quantity_sold ≤ 0 then (s, .error .validationError)
  else
    let lots := availableLots s inp
    let total_available := (lots.map (·.quantity_remaining)).sum
    if total_available < inp.quantity_sold then
      (s, .error .insufficientStock)
    else
      let rec_result := allocateLoop inp.byproduct_type
        (freshSaleId s.sales) inp.sale_rate lots inp.quantity_sold
        (saleInsert s inp)
      (rec_result.1, .ok rec_result.2)

/-- Refinement target for the FIFO walk, following the spec's words: visit
the ordered lots, allocate `min(remaining_to_sell, lot.quantity_remaining)`
to each, decrement, stop at zero. -/
def fifoSpecAllocs (remaining_to_sell : ℚ) :
    List AvailLot → List (Nat × ℚ)
  | [] => []
  | lot :: rest =>
      if remaining_to_sell ≤ 0 then []
      else (lot.batch_id, min remaining_to_sell lot.quantity_remaining) ::
        fifoSpecAllocs
          (remaining_to_sell - min remaining_to_sell lot.quantity_remaining)
          rest

/-- The batch's `total_production_cost` minus the full estimated by-product revenues:
the batch's net cost as first computed by `add_batch`. -/
def batchBaselineNetCost (b : Batch) : ℚ :=
  b.total_production_cost - b.oil_cake_yield * b.cake_estimated_rate -
    b.sludge_yield * b.sludge_estimated_rate

/-! ### Purchases (`modules/purchase.py`, `add_purchase`) -/

structure PurchaseItemInput where
  material_id : Nat
  quantity : ℚ
  rate : ℚ
  gst_rate : ℚ
  transport_charges : ℚ
  handling_charges : ℚ
deriving DecidableEq

/-- The JSON body of `add_purchase`; `none` marks a missing required
field. -/
structure PurchaseInput where
  supplier_id : Option Nat
  invoice_ref : Option String
  purchase_date : Option Nat
  items : Option (List PurchaseItemInput)
  transport_cost : ℚ
  handling_charges : ℚ
deriving DecidableEq

structure PurchaseRecord where
  purchase_id : Nat
  supplier_id : Nat
  purchase_date : Nat
  subtotal : ℚ
  total_gst_amount : ℚ
  total_cost : ℚ
deriving DecidableEq

structure PurchaseItemRecord where
  purchase_id : Nat
  material_id : Nat
  quantity : ℚ
  rate : ℚ
  amount : ℚ
  gst_amount : ℚ
  total_amount : ℚ
  landed_cost_per_unit : ℚ
deriving DecidableEq

structure PurchaseState where
  purchase_rows : List PurchaseRecord
  purchase_items : List PurchaseItemRecord
  inventory : List InventoryRow
deriving DecidableEq

inductive PurchaseErr
  | missingRequiredFields
  | noItems
deriving DecidableEq

/-- Computes `gst_amount = (amount + item charges) * gst_rate / 100`. -/
def itemGstAmount (it : PurchaseItemInput) : ℚ :=
  (it.quantity * it.rate + it.transport_charges + it.handling_charges) *
    it.gst_rate / 100

/-- Computes `item_total = amount + gst + charges`. -/
def itemTotal (it : PurchaseItemInput) : ℚ :=
  it.quantity * it.rate + itemGstAmount it + it.transport_charges +
    it.handling_charges

/-- Computes `landed_cost_per_unit = item_total / quantity if quantity > 0 else 0`. -/
def landedCostPerUnit (it : PurchaseItemInput) : ℚ :=
  if it.quantity > 0 then itemTotal it / it.quantity else 0

def freshPurchaseId (rows : List PurchaseRecord) : Nat :=
  (rows.map (·.purchase_id)).foldr max 0 + 1

/-- Handler `add_purchase`: reject missing required fields or an empty item list;
otherwise record the header, and per item record the line and call
`update_inventory` with the landed cost.  No positivity check is made on
quantity or rate anywhere in the handler. -/
def add_purchase (st : PurchaseState) (inp : PurchaseInput) :
    PurchaseState × Except PurchaseErr Nat :=
  match inp.supplier_id, inp.invoice_ref, inp.purchase_date, inp.items with
  | some supplier, some _, some pdate, some items =>
      if items.length = 0 then (st, .error .noItems)
      else
        let subtotal := (items.map (fun it => it.quantity * it.rate)).sum
        let total_gst := (items.map itemGstAmount).sum
        let total_cost := subtotal + total_gst + inp.transport_cost +
          inp.handling_charges
        let pid := freshPurchaseId st.purchase_rows
        let st1 := { st with purchase_rows := st.purchase_rows ++
          [{ purchase_id := pid, supplier_id := supplier,
             purchase_date := pdate, subtotal := subtotal,
             total_gst_amount := total_gst, total_cost := total_cost }] }
        let st2 := items.foldl (fun acc it =>
          { acc with
            purchase_items := acc.purchase_items ++
              [{ purchase_id := pid, material_id := it.material_id,
                 quantity := it.quantity, rate := it.rate,
                 amount := it.quantity * it.rate,
                 gst_amount := itemGstAmount it,
                 total_amount := itemTotal it,
                 landed_cost_per_unit := landedCostPerUnit it }],
            inventory := update_inventory it.material_id it.quantity
              (landedCostPerUnit it) pdate acc.inventory }) st1
        (st2, .ok pid)
  | _, _, _, _ => (st, .error .missingRequiredFields)

/-- When `btype = "oil_cake"`, the batch's cake estimate, else its sludge
estimate — the rate the retroactive adjustment is computed against. -/
def estOf (btype : String) (b : Batch) : ℚ :=
  if btype = "oil_cake" then b.cake_estimated_rate else b.sludge_estimated_rate

/-- The batch's static cost inputs, never written by the sale handler. -/
def staticOf (b : Batch) : ℚ × ℚ × ℚ × ℚ × ℚ :=
  (b.total_production_cost, b.oil_cake_yield, b.cake_estimated_rate,
   b.sludge_yield, b.sludge_estimated_rate)

/-! ### Concrete scenarios -/

/-- A batch as `add_batch` leaves it: cake yield 5 at estimated rate 10,
production cost 150, so `net_oil_cost = 100`. -/
def mkExampleBatch (id pd : Nat) : Batch :=
  { batch_id := id, oil_type := "Groundnut", production_date := pd,
    oil_yield := 10, total_production_cost := 150, net_oil_cost := 100,
    oil_cost_per_kg := 10, oil_cake_yield := 5, cake_estimated_rate := 10,
    cake_sold_quantity := 0, cake_actual_rate := 0, sludge_yield := 0,
    sludge_estimated_rate := 0, sludge_sold_quantity := 0,
    sludge_actual_rate := 0 }

def mkExampleLot (id pd : Nat) : OilCakeLot :=
  { cake_inventory_id := id, batch_id := id, oil_type := "Groundnut",
    quantity_produced := 5, quantity_remaining := 5, estimated_rate := 10,
    production_date := pd }

/-- Lots of remaining quantity 5 produced on days 10, 12, 15. -/
def exampleState : SalesState :=
  { cake_lots := [mkExampleLot 1 10, mkExampleLot 2 12, mkExampleLot 3 15],
    batches := [mkExampleBatch 1 10, mkExampleBatch 2 12,
      mkExampleBatch 3 15],
    sales := [], allocations := [] }

def exampleSale : SaleInput :=
  { sale_date := 20, buyer_name := "B", quantity_sold := 8, sale_rate := 10,
    byproduct_type := "oil_cake", oil_type := none, transport_cost := 0 }

/-- A sale of 20 against the 15 units remaining in `exampleState`. -/
def oversizedSale : SaleInput :=
  { sale_date := 20, buyer_name := "B", quantity_sold := 20, sale_rate := 10,
    byproduct_type := "oil_cake", oil_type := none, transport_cost := 0 }

/-- A batch with cake yield 100 estimated at 10, production cost 1000, so
the freshly created `net_oil_cost` is 0. -/
def retroBatch : Batch :=
  { batch_id := 1, oil_type := "Groundnut", production_date := 0,
    oil_yield := 100, total_production_cost := 1000, net_oil_cost := 0,
    oil_cost_per_kg := 0, oil_cake_yield := 100, cake_estimated_rate := 10,
    cake_sold_quantity := 0, cake_actual_rate := 0, sludge_yield := 0,
    sludge_estimated_rate := 0, sludge_sold_quantity := 0,
    sludge_actual_rate := 0 }

def retroLot : OilCakeLot :=
  { cake_inventory_id := 1, batch_id := 1, oil_type := "Groundnut",
    quantity_produced := 100, quantity_remaining := 100,
    estimated_rate := 10, production_date := 5 }

def retroState : SalesState :=
  { cake_lots := [retroLot], batches := [retroBatch], sales := [],
    allocations := [] }

/-- First sale: 50 units at 2, far below the estimate of 10. -/
def retroSale1 : SaleInput :=
  { sale_date := 6, buyer_name := "X", quantity_sold := 50, sale_rate := 2,
    byproduct_type := "oil_cake", oil_type := none, transport_cost := 0 }

/-- Second sale: 10 units at 9, still below the estimate of 10. -/
def retroSale2 : SaleInput :=
  { sale_date := 7, buyer_name := "Y", quantity_sold := 10, sale_rate := 9,
    byproduct_type := "oil_cake", oil_type := none, transport_cost := 0 }

/-- First sale above the estimate: 50 units at 12. -/
def retroSaleAbove : SaleInput :=
  { sale_date := 6, buyer_name := "Z", quantity_sold := 50, sale_rate := 12,
    byproduct_type := "oil_cake", oil_type := none, transport_cost := 0 }

/-- State `retroState` after `retroSale1`: net cost raised to
0 + 50*(10-2) = 400. -/
def retroStateAfter1 : SalesState :=
  { cake_lots :=
      [{ cake_inventory_id := 1, batch_id := 1, oil_type := "Groundnut",
         quantity_produced := 100, quantity_remaining := 50,
         estimated_rate := 10, production_date := 5 }],
    batches :=
      [{ retroBatch with
           net_oil_cost := 400, oil_cost_per_kg := 4,
           cake_sold_quantity := 50, cake_actual_rate := 2 }],
    sales :=
      [{ sale_id := 1, sale_date := 6, buyer_name := "X",
         oil_type := some "Groundnut", grade := "oil_cake",
         quantity_sold := 50, sale_rate := 2, total_amount := 100,
         transport_cost := 0, net_rate := 2 }],
    allocations :=
      [{ sale_id := 1, batch_id := 1, quantity_allocated := 50,
         original_estimate_rate := 10, actual_sale_rate := 2,
         cost_adjustment_per_kg := 8, oil_cost_adjustment := 400 }] }

/-- State `retroStateAfter1` after `retroSale2`: the second allocation overwrites
the net cost with 0 + 10*(10-9) = 10 — the first sale's 400 is gone. -/
def retroStateAfter2 : SalesState :=
  { cake_lots :=
      [{ cake_inventory_id := 1, batch_id := 1, oil_type := "Groundnut",
         quantity_produced := 100, quantity_remaining := 40,
         estimated_rate := 10, production_date := 5 }],
    batches :=
      [{ retroBatch with
           net_oil_cost := 10, oil_cost_per_kg := 1 / 10,
           cake_sold_quantity := 60, cake_actual_rate := 9 }],
    sales :=
      [{ sale_id := 1, sale_date := 6, buyer_name := "X",
         oil_type := some "Groundnut", grade := "oil_cake",
         quantity_sold := 50, sale_rate := 2, total_amount := 100,
         transport_cost := 0, net_rate := 2 },
       { sale_id := 2, sale_date := 7, buyer_name := "Y",
         oil_type := some "Groundnut", grade := "oil_cake",
         quantity_sold := 10, sale_rate := 9, total_amount := 90,
         transport_cost := 0, net_rate := 9 }],
    allocations :=
      [{ sale_id := 1, batch_id := 1, quantity_allocated := 50,
         original_estimate_rate := 10, actual_sale_rate := 2,
         cost_adjustment_per_kg := 8, oil_cost_adjustment := 400 },
       { sale_id := 2, batch_id := 1, quantity_allocated := 10,
         original_estimate_rate := 10, actual_sale_rate := 9,
         cost_adjustment_per_kg := 1, oil_cost_adjustment := 10 }] }

/-- State `retroState` after `retroSaleAbove`: selling above the estimate lowers
the net cost to 0 + 50*(10-12) = -100. -/
def retroStateAbove : SalesState :=
  { cake_lots :=
      [{ cake_inventory_id := 1, batch_id := 1, oil_type := "Groundnut",
         quantity_produced := 100, quantity_remaining := 50,
         estimated_rate := 10, production_date := 5 }],
    batches :=
      [{ retroBatch with
           net_oil_cost := (-100 : ℚ), oil_cost_per_kg := (-1 : ℚ),
           cake_sold_quantity := 50, cake_actual_rate := 12 }],
    sales :=
      [{ sale_id := 1, sale_date := 6, buyer_name := "Z",
         oil_type := some "Groundnut", grade := "oil_cake",
         quantity_sold := 50, sale_rate := 12, total_amount := 600,
         transport_cost := 0, net_rate := 12 }],
    allocations :=
      [{ sale_id := 1, batch_id := 1, quantity_allocated := 50,
         original_estimate_rate := 10, actual_sale_rate := 12,
         cost_adjustment_per_kg := (-2 : ℚ),
         oil_cost_adjustment := (-100 : ℚ) }] }

/-- A bulk-oil inventory row satisfying the stock invariant
(100 = 0 + 100 - 0). -/
def bulkOilRow : InventoryRow :=
  { inventory_id := 1, material_id := none, oil_type := some "Groundnut",
    is_bulk_oil := true, source_type := some "extraction",
    source_reference_id := some 1, opening_stock := 0,
    closing_stock := 100, purchases := 100, consumption := 0,
    weighted_avg_cost := 50, last_updated := 0 }

/-- Source lot with ample stock for the blend scenario. -/
def blendInvA : InventoryRow :=
  { inventory_id := 1, material_id := none, oil_type := some "Groundnut",
    is_bulk_oil := true, source_type := some "extraction",
    source_reference_id := some 1, opening_stock := 100,
    closing_stock := 100, purchases := 0, consumption := 0,
    weighted_avg_cost := 10, last_updated := 0 }

/-- Source lot with only 3 units remaining. -/
def blendInvB : InventoryRow :=
  { inventory_id := 2, material_id := none, oil_type := some "Sesame",
    is_bulk_oil := true, source_type := some "extraction",
    source_reference_id := some 2, opening_stock := 3, closing_stock := 3,
    purchases := 0, consumption := 0, weighted_avg_cost := 20,
    last_updated := 0 }

def blendStateEx : BlendState :=
  { inventory := [blendInvA, blendInvB], blend_batches := [],
    blend_batch_components := [] }

/-- A 50/50 blend of 100 units: each component needs 50, but the Sesame
source lot holds only 3. -/
def blendInputEx : BlendInput :=
  { blend_description := "D", blend_date := 1, total_quantity := 100,
    components :=
      [{ oil_type := "Groundnut", source_type := "extraction",
         source_batch_id := some 1, percentage := 50, cost_per_kg := 10 },
       { oil_type := "Sesame", source_type := "extraction",
         source_batch_id := some 2, percentage := 50, cost_per_kg := 20 }] }

/-- A valid blend input: two components, percentages 60 + 40 = 100. -/
def blendInputOk : BlendInput :=
  { blend_description := "W", blend_date := 2, total_quantity := 10,
    components :=
      [{ oil_type := "Groundnut", source_type := "extraction",
         source_batch_id := some 1, percentage := 60, cost_per_kg := 5 },
       { oil_type := "Sesame", source_type := "extraction",
         source_batch_id := some 2, percentage := 40, cost_per_kg := 20 }] }

/-- A purchase whose single item has a negative quantity. -/
def badPurchaseInput : PurchaseInput :=
  { supplier_id := some 1, invoice_ref := some "INV", purchase_date := some 0,
    items := some [{ material_id := 1, quantity := (-5 : ℚ), rate := 10,
                     gst_rate := 0, transport_charges := 0,
                     handling_charges := 0 }],
    transport_cost := 0, handling_charges := 0 }

/-- C2: `Receive` with no existing row inserts
`opening_stock=0, closing_stock=qty, purchases=qty, weighted_avg_cost=cost`;
with an existing row it adds `qty` to `closing_stock` and `purchases` and sets
the average to `(old_stock*old_avg + qty*cost)/(old_stock+qty)`, falling back
to `cost` exactly when the resulting stock is zero (given non-negative
quantity and stock, the code's `new_stock > 0` guard coincides with that). -/
theorem update_inventory_receive_spec (m : Nat) (q c : ℚ) (d : Nat)
    (rows : List InventoryRow) (hq : 0 ≤ q) :
    (findInventoryRow m rows = none →
       update_inventory m q c d rows =
         rows ++ [newInventoryRow (freshInventoryId rows) m q c d]) ∧
    (∀ r, findInventoryRow m rows = some r → 0 ≤ r.closing_stock →
       update_inventory m q c d rows = rows.map (fun x =>
         if x.inventory_id = r.inventory_id then
           { x with closing_stock := r.closing_stock + q,
                    purchases := x.purchases + q,
                    last_updated := d,
                    weighted_avg_cost :=
                      if r.closing_stock + q = 0 then c
                      else (r.closing_stock * r.weighted_avg_cost + q * c) /
                        (r.closing_stock + q) }
         else x)) := by
  constructor
  · intro h
    unfold update_inventory
    rw [h]
  · intro r hr hcs
    unfold update_inventory
    rw [hr]
    simp only
    congr 1
    funext x
    by_cases hx : x.inventory_id = r.inventory_id
    · rw [if_pos hx, if_pos hx]
      have hsum : 0 ≤ r.closing_stock + q := by linarith
      by_cases h0 : r.closing_stock + q = 0
      · rw [if_neg (by rw [h0]; exact lt_irrefl 0), if_pos h0]
      · have hgt : r.closing_stock + q > 0 := lt_of_le_of_ne hsum (Ne.symm h0)
        rw [if_pos hgt, if_neg h0]
    · rw [if_neg hx, if_neg hx]

theorem update_inventory_receive_spec_witness :
    update_inventory 7 2 5 3 [] =
      [] ++ [newInventoryRow (freshInventoryId []) 7 2 5 3] :=
  (update_inventory_receive_spec 7 2 5 3 [] (by norm_num)).1 rfl

lemma update_inventory_single (m : Nat) (q c : ℚ) (d : Nat) (r : InventoryRow)
    (hm : r.material_id = some m) :
    update_inventory m q c d [r] =
      [{ r with closing_stock := r.closing_stock + q,
                weighted_avg_cost :=
                  if r.closing_stock + q > 0 then
                    (r.closing_stock * r.weighted_avg_cost + q * c) /
                      (r.closing_stock + q)
                  else c,
                purchases := r.purchases + q, last_updated := d }] := by
  unfold update_inventory findInventoryRow
  simp [List.find?, hm]

lemma receiveSeq_single (m : Nat) (l : List (ℚ × ℚ)) :
    ∀ (r : InventoryRow) (S V : ℚ), r.material_id = some m →
      r.closing_stock = S → r.weighted_avg_cost = V / S → 0 < S →
      (∀ p ∈ l, 0 < p.1) →
      ∃ r' : InventoryRow, receiveSeq m l [r] = [r'] ∧
        r'.material_id = some m ∧
        r'.closing_stock = S + (l.map Prod.fst).sum ∧
        r'.weighted_avg_cost =
          (V + (l.map (fun p => p.1 * p.2)).sum) /
            (S + (l.map Prod.fst).sum) := by
  induction l with
  | nil =>
    intro r S V hm hcs hav hS _
    exact ⟨r, rfl, hm, by simp [hcs], by simp [hav]⟩
  | cons x tl ih =>
    intro r S V hm hcs hav hS hpos
    have hq : 0 < x.1 := hpos x (List.mem_cons_self _ _)
    have hstep : receiveSeq m (x :: tl) [r] =
        receiveSeq m tl (update_inventory m x.1 x.2 0 [r]) := rfl
    rw [hstep, update_inventory_single m x.1 x.2 0 r hm]
    have hV : S * (V / S) = V := by field_simp
    have hav1 : (if r.closing_stock + x.1 > 0 then
        (r.closing_stock * r.weighted_avg_cost + x.1 * x.2) /
          (r.closing_stock + x.1) else x.2) = (V + x.1 * x.2) / (S + x.1) := by
      rw [hcs, hav, if_pos (by linarith), hV]
    obtain ⟨r', h1, h2, h3, h4⟩ :=
      ih { r with closing_stock := r.closing_stock + x.1,
                  weighted_avg_cost :=
                    if r.closing_stock + x.1 > 0 then
                      (r.closing_stock * r.weighted_avg_cost + x.1 * x.2) /
                        (r.closing_stock + x.1)
                    else x.2,
                  purchases := r.purchases + x.1, last_updated := 0 }
         (S + x.1) (V + x.1 * x.2) hm (by rw [show ({ r with
             closing_stock := r.closing_stock + x.1,
             weighted_avg_cost :=
               if r.closing_stock + x.1 > 0 then
                 (r.closing_stock * r.weighted_avg_cost + x.1 * x.2) /
                   (r.closing_stock + x.1)
               else x.2,
             purchases := r.purchases + x.1,
             last_updated := 0 } : InventoryRow).closing_stock =
             r.closing_stock + x.1 from rfl, hcs])
         hav1 (by linarith) (fun p hp => hpos p (List.mem_cons_of_mem _ hp))
    refine ⟨r', h1, h2, ?_, ?_⟩
    · rw [h3, List.map_cons, List.sum_cons]; ring
    · rw [h4, List.map_cons, List.sum_cons, List.map_cons, List.sum_cons,
        add_assoc, add_assoc]

lemma receiveSeq_from_empty (m : Nat) (l : List (ℚ × ℚ)) (hne : l ≠ [])
    (hpos : ∀ p ∈ l, 0 < p.1) :
    ∃ r : InventoryRow, receiveSeq m l [] = [r] ∧
      r.weighted_avg_cost =
        (l.map (fun p => p.1 * p.2)).sum / (l.map Prod.fst).sum := by
  match l, hne with
  | x :: tl, _ =>
    have hq : 0 < x.1 := hpos x (List.mem_cons_self _ _)
    have h0 : receiveSeq m (x :: tl) [] =
        receiveSeq m tl (update_inventory m x.1 x.2 0 []) := rfl
    have h1 : update_inventory m x.1 x.2 0 [] =
        [newInventoryRow 1 m x.1 x.2 0] := rfl
    rw [h0, h1]
    have hav : (newInventoryRow 1 m x.1 x.2 0).weighted_avg_cost =
        (x.1 * x.2) / x.1 := by
      show x.2 = x.1 * x.2 / x.1
      rw [mul_comm, mul_div_assoc, div_self hq.ne', mul_one]
    obtain ⟨r, h2, _, _, h5⟩ :=
      receiveSeq_single m tl (newInventoryRow 1 m x.1 x.2 0) x.1 (x.1 * x.2)
        rfl rfl hav hq (fun p hp => hpos p (List.mem_cons_of_mem _ hp))
    refine ⟨r, h2, ?_⟩
    rw [h5, List.map_cons, List.sum_cons, List.map_cons, List.sum_cons]

/-- C9: starting from an empty lot, a nonempty sequence of `Receive` calls
with positive quantities `q_i` and costs `c_i` leaves a single inventory row
whose `weighted_avg_cost` is `Σ(q_i*c_i) / Σq_i`, and any permutation of the
call order yields the same average. -/
theorem receive_order_invariant_weighted_avg (m : Nat)
    (l l' : List (ℚ × ℚ)) (hne : l ≠ []) (hpos : ∀ p ∈ l, 0 < p.1)
    (hperm : l.Perm l') :
    ∃ r r' : InventoryRow, receiveSeq m l [] = [r] ∧
      receiveSeq m l' [] = [r'] ∧
      r.weighted_avg_cost =
        (l.map (fun p => p.1 * p.2)).sum / (l.map Prod.fst).sum ∧
      r'.weighted_avg_cost = r.weighted_avg_cost := by
  obtain ⟨r, h1, h2⟩ := receiveSeq_from_empty m l hne hpos
  have hne' : l' ≠ [] := by
    intro h
    exact hne (List.eq_nil_of_length_eq_zero
      (by rw [hperm.length_eq, h, List.length_nil]))
  have hpos' : ∀ p ∈ l', 0 < p.1 := fun p hp =>
    hpos p (hperm.mem_iff.mpr hp)
  obtain ⟨r', h1', h2'⟩ := receiveSeq_from_empty m l' hne' hpos'
  refine ⟨r, r', h1, h1', h2, ?_⟩
  rw [h2', h2, (hperm.map (fun p => p.1 * p.2)).sum_eq,
    (hperm.map Prod.fst).sum_eq]

lemma batchSeedConsume_single (m : Nat) (q : ℚ) (d : Nat) (r : InventoryRow)
    (hm : r.material_id = some m) :
    batchSeedConsume m q d [r] =
      [{ r with closing_stock := r.closing_stock - q,
                consumption := r.consumption + q, last_updated := d }] := by
  simp [batchSeedConsume, hm]

lemma ledgerOps_single (m : Nat) (ops : List LedgerOp) :
    ∀ r : InventoryRow, r.material_id = some m →
      ∃ r', ops.foldl (applyLedgerOp m) [r] = [r'] ∧
        r'.material_id = some m ∧
        r'.opening_stock = r.opening_stock ∧
        r'.closing_stock = r.closing_stock +
          receivedTotal ops - consumedTotal ops := by
  induction ops with
  | nil =>
    intro r hm
    exact ⟨r, rfl, hm, rfl, by simp [receivedTotal, consumedTotal]⟩
  | cons op tl ih =>
    intro r hm
    cases op with
    | receive q c =>
      have hstep : (LedgerOp.receive q c :: tl).foldl (applyLedgerOp m) [r] =
          tl.foldl (applyLedgerOp m) (update_inventory m q c 0 [r]) := rfl
      rw [hstep, update_inventory_single m q c 0 r hm]
      obtain ⟨r', h1, h2, h3, h4⟩ :=
        ih { r with closing_stock := r.closing_stock + q,
                    weighted_avg_cost :=
                      if r.closing_stock + q > 0 then
                        (r.closing_stock * r.weighted_avg_cost + q * c) /
                          (r.closing_stock + q)
                      else c,
                    purchases := r.purchases + q, last_updated := 0 } hm
      refine ⟨r', h1, h2, h3, ?_⟩
      have h4' : r'.closing_stock =
          r.closing_stock + q + receivedTotal tl - consumedTotal tl := h4
      rw [h4']
      simp only [receivedTotal, consumedTotal, List.map_cons, List.sum_cons]
      ring
    | consume q =>
      have hstep : (LedgerOp.consume q :: tl).foldl (applyLedgerOp m) [r] =
          tl.foldl (applyLedgerOp m) (batchSeedConsume m q 0 [r]) := rfl
      rw [hstep, batchSeedConsume_single m q 0 r hm]
      obtain ⟨r', h1, h2, h3, h4⟩ :=
        ih { r with closing_stock := r.closing_stock - q,
                    consumption := r.consumption + q, last_updated := 0 } hm
      refine ⟨r', h1, h2, h3, ?_⟩
      have h4' : r'.closing_stock =
          r.closing_stock - q + receivedTotal tl - consumedTotal tl := h4
      rw [h4']
      simp only [receivedTotal, consumedTotal, List.map_cons, List.sum_cons]
      ring

/-- C3 (counterexample): the stock invariant does NOT survive the oil
receipt of `add_batch` — its `UPDATE` names `closing_stock` but not
`purchases`.  A bulk-oil row satisfying the invariant (100 = 0 + 100 - 0)
violates it after receiving 10 kg of oil (closing 110, purchases still
100). -/
theorem stock_invariant_batch_oil_counterexample :
    stockInvariant bulkOilRow ∧
    ∃ r' ∈ batchOilReceive "Groundnut" 10 40 1 2 [bulkOilRow],
      ¬ stockInvariant r' := by
  constructor
  · show (100 : ℚ) = 0 + 100 - 0
    norm_num
  · refine ⟨{ bulkOilRow with
                closing_stock := 110,
                weighted_avg_cost := (100 * 50 + 10 * 40) / (110 : ℚ),
                last_updated := 1 }, ?_, ?_⟩
    · norm_num [batchOilReceive, findBulkOilRow, bulkOilRow]
    · norm_num [stockInvariant, bulkOilRow]

/-- C3 (amended): `closing_stock = opening_stock + purchases - consumption`
is preserved by the purchase receive (`update_inventory`), the batch seed
consume, the blend component consume, and holds for the freshly inserted
blend inventory row; and after any sequence of Receive/Consume calls on a
fresh lot the closing stock equals opening plus total received minus total
consumed.  (The batch oil receive is excluded: it breaks the invariant, see
the counterexample.) -/
theorem stock_invariant_amended :
    (∀ (m : Nat) (q c : ℚ) (d : Nat) (rows : List InventoryRow),
        (rows.map (·.inventory_id)).Nodup →
        (∀ r ∈ rows, stockInvariant r) →
        ∀ r' ∈ update_inventory m q c d rows, stockInvariant r') ∧
    (∀ (m : Nat) (q : ℚ) (d : Nat) (rows : List InventoryRow),
        (∀ r ∈ rows, stockInvariant r) →
        ∀ r' ∈ batchSeedConsume m q d rows, stockInvariant r') ∧
    (∀ (day : Nat) (tq : ℚ) (c : BlendComponentInput)
        (rows : List InventoryRow),
        (∀ r ∈ rows, stockInvariant r) →
        ∀ r' ∈ blendConsumeComponent day tq c rows, stockInvariant r') ∧
    (∀ (inp : BlendInput) (bid : Nat) (rows : List InventoryRow),
        stockInvariant (newBlendInventoryRow inp bid rows)) ∧
    (∀ (m : Nat) (ops : List LedgerOp) (r : InventoryRow),
        r.material_id = some m → r.closing_stock = r.opening_stock →
        ∃ r', ops.foldl (applyLedgerOp m) [r] = [r'] ∧
          r'.closing_stock = r'.opening_stock +
            receivedTotal ops - consumedTotal ops) := by
  refine ⟨?_, ?_, ?_, ?_, ?_⟩
  · intro m q c d rows hnd hinv r' hr'
    unfold update_inventory at hr'
    cases hf : findInventoryRow m rows with
    | none =>
      rw [hf] at hr'
      rcases List.mem_append.mp hr' with h | h
      · exact hinv _ h
      · have hr'' : r' = newInventoryRow (freshInventoryId rows) m q c d :=
          List.mem_singleton.mp h
        rw [hr'']
        show q = 0 + q - 0
        ring
    | some r0 =>
      rw [hf] at hr'
      simp only [List.mem_map] at hr'
      obtain ⟨x, hx, hfx⟩ := hr'
      by_cases hid : x.inventory_id = r0.inventory_id
      · have hr0mem : r0 ∈ rows := List.mem_of_find?_eq_some hf
        have hx0 : x = r0 := List.inj_on_of_nodup_map hnd hx hr0mem hid
        rw [if_pos hid] at hfx
        rw [← hfx]
        have hx_inv := hinv x hx
        unfold stockInvariant at hx_inv ⊢
        show r0.closing_stock + q =
          x.opening_stock + (x.purchases + q) - x.consumption
        rw [hx0] at hx_inv ⊢
        linarith
      · rw [if_neg hid] at hfx
        rw [← hfx]
        exact hinv x hx
  · intro m q d rows hinv r' hr'
    simp only [batchSeedConsume, List.mem_map] at hr'
    obtain ⟨x, hx, hfx⟩ := hr'
    by_cases hmm : x.material_id = some m
    · rw [if_pos hmm] at hfx
      rw [← hfx]
      have hx_inv := hinv x hx
      unfold stockInvariant at hx_inv ⊢
      show x.closing_stock - q =
        x.opening_stock + x.purchases - (x.consumption + q)
      linarith
    · rw [if_neg hmm] at hfx
      rw [← hfx]
      exact hinv x hx
  · intro day tq c rows hinv r' hr'
    simp only [blendConsumeComponent, List.mem_map] at hr'
    obtain ⟨x, hx, hfx⟩ := hr'
    unfold blendConsumeRow at hfx
    by_cases hc : blendRowMatches c x = true ∧
        componentQty tq c ≤ x.closing_stock
    · rw [if_pos hc] at hfx
      rw [← hfx]
      have hx_inv := hinv x hx
      unfold stockInvariant at hx_inv ⊢
      show x.closing_stock - componentQty tq c =
        x.opening_stock + x.purchases -
          (x.consumption + componentQty tq c)
      linarith
    · rw [if_neg hc] at hfx
      rw [← hfx]
      exact hinv x hx
  · intro inp bid rows
    show inp.total_quantity = inp.total_quantity + 0 - 0
    ring
  · intro m ops r hm hfresh
    obtain ⟨r', h1, _, h3, h4⟩ := ledgerOps_single m ops r hm
    exact ⟨r', h1, by rw [h4, h3, hfresh]⟩

theorem stock_invariant_amended_witness :
    ∃ r', [LedgerOp.receive 10 5, LedgerOp.consume 4].foldl
        (applyLedgerOp 1) [newInventoryRow 1 1 0 0 0] = [r'] ∧
      r'.closing_stock = r'.opening_stock +
        receivedTotal [LedgerOp.receive 10 5, LedgerOp.consume 4] -
        consumedTotal [LedgerOp.receive 10 5, LedgerOp.consume 4] :=
  stock_invariant_amended.2.2.2.2 1 _ (newInventoryRow 1 1 0 0 0) rfl rfl

/-- C7: `create_blend` rejects with a validation error exactly when there
are fewer than 2 components or the percentage sum is off 100 by more than
0.01; on acceptance the recorded `weighted_avg_cost` is
`Σ (total_quantity*pct_i/100)*cost_per_kg_i / total_quantity`. -/
theorem create_blend_validation_spec (st : BlendState) (inp : BlendInput)
    (htq : 0 ≤ inp.total_quantity) :
    ((create_blend st inp).2 = .error .validationError ↔
      inp.components.length < 2 ∨
        |sumPercentages inp.components - 100| > 1 / 100) ∧
    (2 ≤ inp.components.length →
      |sumPercentages inp.components - 100| ≤ 1 / 100 →
      (create_blend st inp).1.blend_batches.getLast? = some
        { blend_id := freshBlendId st.blend_batches,
          total_quantity := inp.total_quantity,
          weighted_avg_cost := (inp.components.map (fun c =>
            inp.total_quantity * (c.percentage / 100) *
              c.cost_per_kg)).sum / inp.total_quantity,
          blend_date := inp.blend_date }) := by
  have hwac : blendWeightedAvgCost inp = (inp.components.map (fun c =>
      inp.total_quantity * (c.percentage / 100) * c.cost_per_kg)).sum /
      inp.total_quantity := by
    unfold blendWeightedAvgCost componentQty
    by_cases h : inp.total_quantity > 0
    · rw [if_pos h]
    · have h0 : inp.total_quantity = 0 := le_antisymm (not_lt.mp h) htq
      rw [if_neg h, h0]
      simp
  constructor
  · constructor
    · intro h
      by_contra hcon
      push_neg at hcon
      obtain ⟨h1, h2⟩ := hcon
      unfold create_blend at h
      rw [if_neg (not_lt.mpr h1), if_neg (not_lt.mpr h2)] at h
      simp at h
    · intro h
      unfold create_blend
      rcases h with h1 | h2
      · rw [if_pos h1]
      · by_cases h1 : inp.components.length < 2
        · rw [if_pos h1]
        · rw [if_neg h1, if_pos h2]
  · intro h1 h2
    unfold create_blend
    rw [if_neg (not_lt.mpr h1), if_neg (not_lt.mpr h2)]
    show (st.blend_batches ++
      [({ blend_id := freshBlendId st.blend_batches,
          total_quantity := inp.total_quantity,
          weighted_avg_cost := blendWeightedAvgCost inp,
          blend_date := inp.blend_date } : BlendRecord)]).getLast? = _
    rw [List.getLast?_concat, hwac]

theorem create_blend_validation_spec_witness :
    (0 : ℚ) ≤ blendInputOk.total_quantity ∧
    (create_blend blendStateEx blendInputOk).1.blend_batches.getLast? =
      some { blend_id := freshBlendId blendStateEx.blend_batches,
             total_quantity := blendInputOk.total_quantity,
             weighted_avg_cost := (blendInputOk.components.map (fun c =>
               blendInputOk.total_quantity * (c.percentage / 100) *
                 c.cost_per_kg)).sum / blendInputOk.total_quantity,
             blend_date := blendInputOk.blend_date } :=
  ⟨by norm_num [blendInputOk],
   (create_blend_validation_spec blendStateEx blendInputOk
      (by norm_num [blendInputOk])).2
     (by norm_num [blendInputOk])
     (by norm_num [sumPercentages, blendInputOk])⟩

/-- C6 (counterexample): a blend whose second component needs 50 units from
a source lot holding only 3 does NOT fail with `InsufficientStock`:
`create_blend` succeeds, the under-stocked row is silently left unchanged
(the guarded `UPDATE` matches no row), and the blend lot is created. -/
theorem blend_insufficient_counterexample :
    (∃ c ∈ blendInputEx.components,
       blendRowMatches c blendInvB = true ∧
       blendInvB.closing_stock <
         componentQty blendInputEx.total_quantity c) ∧
    (create_blend blendStateEx blendInputEx).2 = .ok 1 ∧
    (∃ r ∈ (create_blend blendStateEx blendInputEx).1.inventory,
       r.inventory_id = 2 ∧ r.closing_stock = 3) := by
  refine ⟨⟨{ oil_type := "Sesame", source_type := "extraction",
             source_batch_id := some 2, percentage := 50,
             cost_per_kg := 20 }, ?_, ?_, ?_⟩, ?_, ?_⟩
  · norm_num [blendInputEx]
  · decide
  · norm_num [componentQty, blendInvB, blendInputEx]
  · norm_num [create_blend, blendStateEx, blendInputEx, sumPercentages,
      freshBlendId]
  · refine ⟨blendInvB, ?_, rfl, rfl⟩
    norm_num [create_blend, blendStateEx, blendInputEx, sumPercentages,
      blendConsumeComponent, blendConsumeRow, blendRowMatches, optEqSql,
      componentQty, blendInvA, blendInvB]

/-- C6 (amended): a component whose source lot lacks sufficient stock does
not abort the blend: validation passing, `create_blend` always succeeds;
the guarded per-row deduction leaves a row with
`closing_stock < quantity_used` unchanged; and the new blend inventory row
is still appended. -/
theorem blend_insufficient_no_abort (st : BlendState) (inp : BlendInput)
    (h2 : 2 ≤ inp.components.length)
    (htol : |sumPercentages inp.components - 100| ≤ 1 / 100) :
    ((create_blend st inp).2 = .ok (freshBlendId st.blend_batches)) ∧
    (∀ (day : Nat) (c : BlendComponentInput) (r : InventoryRow),
        r.closing_stock < componentQty inp.total_quantity c →
        blendConsumeRow day (componentQty inp.total_quantity c) c r = r) ∧
    (∃ rows1, (create_blend st inp).1.inventory =
        rows1 ++ [newBlendInventoryRow inp (freshBlendId st.blend_batches)
          rows1]) := by
  refine ⟨?_, ?_, ?_⟩
  · unfold create_blend
    rw [if_neg (not_lt.mpr h2), if_neg (not_lt.mpr htol)]
  · intro day c r hr
    unfold blendConsumeRow
    rw [if_neg]
    intro hcon
    exact absurd hcon.2 (not_le.mpr hr)
  · unfold create_blend
    rw [if_neg (not_lt.mpr h2), if_neg (not_lt.mpr htol)]
    exact ⟨_, rfl⟩

theorem blend_insufficient_no_abort_witness :
    ((create_blend blendStateEx blendInputEx).2 =
      .ok (freshBlendId blendStateEx.blend_batches)) ∧
    (∀ (day : Nat) (c : BlendComponentInput) (r : InventoryRow),
        r.closing_stock < componentQty blendInputEx.total_quantity c →
        blendConsumeRow day (componentQty blendInputEx.total_quantity c)
          c r = r) ∧
    (∃ rows1, (create_blend blendStateEx blendInputEx).1.inventory =
        rows1 ++ [newBlendInventoryRow blendInputEx
          (freshBlendId blendStateEx.blend_batches) rows1]) :=
  blend_insufficient_no_abort blendStateEx blendInputEx
    (by norm_num [blendInputEx])
    (by norm_num [sumPercentages, blendInputEx])

/-- C8 (counterexample): a purchase whose only item has quantity -5 is NOT
rejected: `add_purchase` succeeds and records the item (the handler never
checks quantity or rate positivity). -/
theorem purchase_nonpositive_counterexample :
    (∃ items, badPurchaseInput.items = some items ∧
       ∃ it ∈ items, it.quantity ≤ 0) ∧
    (add_purchase ⟨[], [], []⟩ badPurchaseInput).2 = .ok 1 ∧
    (add_purchase ⟨[], [], []⟩ badPurchaseInput).1.purchase_items.length
      = 1 := by
  refine ⟨⟨_, rfl, ?_⟩, ?_, ?_⟩
  · norm_num [badPurchaseInput]
  · norm_num [add_purchase, badPurchaseInput, freshPurchaseId]
  · norm_num [add_purchase, badPurchaseInput, freshPurchaseId]

/-- C8 (amended): `add_purchase` fails with a validation error exactly for
missing required identifying fields (or an empty item list); a non-positive
quantity or rate is not rejected — the purchase is recorded, with
`landed_cost_per_unit` falling back to 0 when quantity ≤ 0. -/
theorem add_purchase_validation_amended (st : PurchaseState)
    (inp : PurchaseInput) :
    ((inp.supplier_id = none ∨ inp.invoice_ref = none ∨
        inp.purchase_date = none ∨ inp.items = none) →
      add_purchase st inp = (st, .error .missingRequiredFields)) ∧
    (∀ items, inp.items = some items → items ≠ [] →
      inp.supplier_id ≠ none → inp.invoice_ref ≠ none →
      inp.purchase_date ≠ none →
      ∃ pid, (add_purchase st inp).2 = .ok pid) ∧
    (∀ it : PurchaseItemInput, it.quantity ≤ 0 →
      landedCostPerUnit it = 0) := by
  refine ⟨?_, ?_, ?_⟩
  · intro h
    rcases hs : inp.supplier_id with _ | sv <;>
      rcases hi : inp.invoice_ref with _ | iv <;>
      rcases hp : inp.purchase_date with _ | pv <;>
      rcases hit : inp.items with _ | itv <;>
      simp_all [add_purchase]
  · intro items hitems hne hs hi hp
    obtain ⟨sv, hs'⟩ := Option.ne_none_iff_exists'.mp hs
    obtain ⟨iv, hi'⟩ := Option.ne_none_iff_exists'.mp hi
    obtain ⟨pv, hp'⟩ := Option.ne_none_iff_exists'.mp hp
    simp only [add_purchase, hs', hi', hp', hitems]
    rw [if_neg (by simpa using hne)]
    exact ⟨_, rfl⟩
  · intro it hq
    unfold landedCostPerUnit
    rw [if_neg (not_lt.mpr hq)]

theorem add_purchase_validation_amended_witness :
    ∃ pid, (add_purchase ⟨[], [], []⟩ badPurchaseInput).2 = .ok pid :=
  (add_purchase_validation_amended ⟨[], [], []⟩ badPurchaseInput).2.1 _
    rfl (by simp) (by simp [badPurchaseInput]) (by simp [badPurchaseInput])
    (by simp [badPurchaseInput])

lemma mem_insertByDate {z x : AvailLot} :
    ∀ {l : List AvailLot}, z ∈ insertByDate x l ↔ z = x ∨ z ∈ l := by
  intro l
  induction l with
  | nil => simp [insertByDate]
  | cons y ys ih =>
    unfold insertByDate
    by_cases h : x.production_date < y.production_date
    · rw [if_pos h]
      simp [List.mem_cons]
    · rw [if_neg h]
      rw [List.mem_cons, List.mem_cons, ih]
      tauto

lemma mem_sortByDate_aux {z : AvailLot} :
    ∀ (l acc : List AvailLot),
      (z ∈ l.foldl (fun a x => insertByDate x a) acc ↔
        z ∈ acc ∨ z ∈ l) := by
  intro l
  induction l with
  | nil => intro acc; simp
  | cons x tl ih =>
    intro acc
    rw [List.foldl_cons, ih, mem_insertByDate, List.mem_cons]
    tauto

lemma mem_sortByDate {z : AvailLot} {l : List AvailLot} :
    z ∈ sortByDate l ↔ z ∈ l := by
  unfold sortByDate
  rw [mem_sortByDate_aux]
  simp

lemma availableLots_pos (s : SalesState) (inp : SaleInput) :
    ∀ l ∈ availableLots s inp, 0 < l.quantity_remaining := by
  intro l hl
  unfold availableLots at hl
  by_cases h1 : inp.byproduct_type = "oil_cake"
  · rw [if_pos h1, mem_sortByDate] at hl
    unfold cakeAvailUnsorted at hl
    rw [List.mem_filterMap] at hl
    obtain ⟨a, _, hfa⟩ := hl
    cases hfb : findBatch a.batch_id s.batches with
    | none => rw [hfb] at hfa; simp at hfa
    | some b =>
      simp only [hfb] at hfa
      by_cases hc : (0 : ℚ) < a.quantity_remaining ∧
          oilFilterMatch inp.oil_type b.oil_type = true
      · rw [if_pos hc] at hfa
        injection hfa with h
        rw [← h]
        exact hc.1
      · rw [if_neg hc] at hfa
        exact absurd hfa (by simp)
  · rw [if_neg h1] at hl
    by_cases h2 : inp.byproduct_type = "sludge"
    · rw [if_pos h2, mem_sortByDate] at hl
      unfold sludgeAvailUnsorted at hl
      rw [List.mem_filterMap] at hl
      obtain ⟨b, _, hfb⟩ := hl
      by_cases hc : (0 : ℚ) < b.sludge_yield ∧
          (0 : ℚ) < b.sludge_yield - b.sludge_sold_quantity ∧
          oilFilterMatch inp.oil_type b.oil_type = true
      · rw [if_pos hc] at hfb
        injection hfb with h
        rw [← h]
        exact hc.2.1
      · rw [if_neg hc] at hfb
        exact absurd hfb (by simp)
    · rw [if_neg h2] at hl
      simp at hl

/-- C4: when the total remaining quantity across matching lots is strictly
below the quantity to sell, `add_material_sale` fails with
`InsufficientStock` and returns the state unchanged (the transaction is
rolled back before any write). -/
theorem insufficient_stock_rejected (s : SalesState) (inp : SaleInput)
    (hsum : ((availableLots s inp).map (·.quantity_remaining)).sum <
      inp.quantity_sold) :
    add_material_sale s inp = (s, .error .insufficientStock) := by
  have hpos : (0 : ℚ) ≤
      ((availableLots s inp).map (·.quantity_remaining)).sum := by
    apply List.sum_nonneg
    intro x hx
    rw [List.mem_map] at hx
    obtain ⟨l, hl, hxl⟩ := hx
    rw [← hxl]
    exact le_of_lt (availableLots_pos s inp l hl)
  have hq : 0 < inp.quantity_sold := lt_of_le_of_lt hpos hsum
  unfold add_material_sale
  rw [if_neg (not_le.mpr hq), if_pos hsum]

theorem insufficient_stock_rejected_witness :
    add_material_sale exampleState oversizedSale =
      (exampleState, .error .insufficientStock) :=
  insufficient_stock_rejected exampleState oversizedSale (by
    have havail : availableLots exampleState oversizedSale =
        [⟨1, 1, 5, 10, "Groundnut", 10⟩, ⟨2, 2, 5, 10, "Groundnut", 12⟩,
         ⟨3, 3, 5, 10, "Groundnut", 15⟩] := rfl
    rw [havail]
    norm_num [oversizedSale])

lemma pairwise_insertByDate {x : AvailLot} {l : List AvailLot}
    (h : l.Pairwise dateLe) : (insertByDate x l).Pairwise dateLe := by
  induction l with
  | nil => simp [insertByDate]
  | cons y ys ih =>
    rw [List.pairwise_cons] at h
    obtain ⟨hy, hys⟩ := h
    unfold insertByDate
    by_cases hlt : x.production_date < y.production_date
    · rw [if_pos hlt, List.pairwise_cons]
      constructor
      · intro z hz
        rcases List.mem_cons.mp hz with rfl | hz'
        · exact le_of_lt hlt
        · exact le_trans (le_of_lt hlt) (hy z hz')
      · rw [List.pairwise_cons]
        exact ⟨hy, hys⟩
    · rw [if_neg hlt, List.pairwise_cons]
      constructor
      · intro z hz
        rcases mem_insertByDate.mp hz with rfl | hz'
        · exact not_lt.mp hlt
        · exact hy z hz'
      · exact ih hys

lemma pairwise_sortByDate_aux :
    ∀ (l acc : List AvailLot), acc.Pairwise dateLe →
      (l.foldl (fun a x => insertByDate x a) acc).Pairwise dateLe := by
  intro l
  induction l with
  | nil => intro acc h; exact h
  | cons x tl ih =>
    intro acc h
    rw [List.foldl_cons]
    exact ih _ (pairwise_insertByDate h)

lemma pairwise_sortByDate (l : List AvailLot) :
    (sortByDate l).Pairwise dateLe :=
  pairwise_sortByDate_aux l [] List.Pairwise.nil

lemma availableLots_sorted (s : SalesState) (inp : SaleInput) :
    (availableLots s inp).Pairwise dateLe := by
  unfold availableLots
  by_cases h1 : inp.byproduct_type = "oil_cake"
  · rw [if_pos h1]
    exact pairwise_sortByDate _
  · rw [if_neg h1]
    by_cases h2 : inp.byproduct_type = "sludge"
    · rw [if_pos h2]
      exact pairwise_sortByDate _
    · rw [if_neg h2]
      exact List.Pairwise.nil

lemma allocateLoop_allocs (btype : String) (sale_id : Nat) (rate : ℚ) :
    ∀ (lots : List AvailLot) (q : ℚ) (s : SalesState),
      (allocateLoop btype sale_id rate lots q s).2.map
        (fun o => (o.batch_id, o.quantity)) = fifoSpecAllocs q lots := by
  intro lots
  induction lots with
  | nil => intro q s; rfl
  | cons lot rest ih =>
    intro q s
    unfold allocateLoop fifoSpecAllocs
    by_cases hq : q ≤ 0
    · rw [if_pos hq, if_pos hq]
      rfl
    · rw [if_neg hq, if_neg hq]
      simp only [List.map_cons, ih]

lemma fifoSpecAllocs_zero (lots : List AvailLot) (q : ℚ) (hq : q ≤ 0) :
    fifoSpecAllocs q lots = [] := by
  cases lots with
  | nil => rfl
  | cons lot rest =>
    unfold fifoSpecAllocs
    rw [if_pos hq]

lemma fifoSpecAllocs_sum :
    ∀ (lots : List AvailLot) (q : ℚ),
      (∀ l ∈ lots, 0 < l.quantity_remaining) → 0 < q →
      q ≤ (lots.map (·.quantity_remaining)).sum →
      ((fifoSpecAllocs q lots).map Prod.snd).sum = q := by
  intro lots
  induction lots with
  | nil =>
    intro q _ hq hsum
    simp at hsum
    linarith
  | cons lot rest ih =>
    intro q hpos hq hsum
    unfold fifoSpecAllocs
    rw [if_neg (not_le.mpr hq)]
    rcases le_or_lt q lot.quantity_remaining with hle | hgt
    · rw [min_eq_left hle, fifoSpecAllocs_zero rest (q - q) (by linarith)]
      simp
    · rw [min_eq_right (le_of_lt hgt)]
      rw [List.map_cons, List.sum_cons] at hsum
      rw [List.map_cons, List.sum_cons,
        ih (q - lot.quantity_remaining)
          (fun l hl => hpos l (List.mem_cons_of_mem _ hl))
          (by linarith) (by linarith)]
      ring

lemma exampleAvail : availableLots exampleState exampleSale =
    [⟨1, 1, 5, 10, "Groundnut", 10⟩, ⟨2, 2, 5, 10, "Groundnut", 12⟩,
     ⟨3, 3, 5, 10, "Groundnut", 15⟩] := rfl

lemma map_quantity_eq (outs : List AllocOut) :
    outs.map (·.quantity) =
      (outs.map (fun o => (o.batch_id, o.quantity))).map Prod.snd := by
  rw [List.map_map]
  rfl

/-- C1: with enough total stock, the sale succeeds; the lot list it walks is
in ascending production-date order; the allocations refine the spec's
greedy min-walk, whose quantities sum to the quantity sold; in particular,
for lots of remaining 5/5/5 on days 10/12/15, selling 8 takes 5 from the
day-10 lot, 3 from the day-12 lot (leaving it 2), and nothing from the
day-15 lot. -/
theorem fifo_allocation_correct (s : SalesState) (inp : SaleInput)
    (hq : 0 < inp.quantity_sold)
    (hsum : inp.quantity_sold ≤
      ((availableLots s inp).map (·.quantity_remaining)).sum) :
    (availableLots s inp).Pairwise dateLe ∧
    (∃ outs, (add_material_sale s inp).2 = .ok outs ∧
       outs.map (fun o => (o.batch_id, o.quantity)) =
         fifoSpecAllocs inp.quantity_sold (availableLots s inp) ∧
       (outs.map (·.quantity)).sum = inp.quantity_sold) ∧
    ((add_material_sale exampleState exampleSale).1.cake_lots.map
        (·.quantity_remaining) = [0, 2, 5] ∧
     ∃ exouts, (add_material_sale exampleState exampleSale).2 = .ok exouts ∧
       exouts.map (fun o => (o.batch_id, o.quantity)) = [(1, 5), (2, 3)]) := by
  refine ⟨availableLots_sorted s inp, ?_, ?_, ?_⟩
  · unfold add_material_sale
    rw [if_neg (not_le.mpr hq), if_neg (not_lt.mpr hsum)]
    refine ⟨_, rfl, allocateLoop_allocs _ _ _ _ _ _, ?_⟩
    rw [map_quantity_eq, allocateLoop_allocs]
    exact fifoSpecAllocs_sum _ _ (availableLots_pos s inp) hq hsum
  · simp only [add_material_sale, exampleAvail]
    norm_num [exampleState, exampleSale, mkExampleLot, mkExampleBatch,
      allocateLoop, allocStep, saleInsert, applyAllocationInventory,
      adjustBatchOilCost, updateCakeLot, updateBatch, freshSaleId,
      findBatch, List.find?, min_def]
  · refine ⟨[⟨1, 5, 0⟩, ⟨2, 3, 0⟩], ?_, ?_⟩
    · simp only [add_material_sale, exampleAvail]
      norm_num [exampleState, exampleSale, mkExampleLot, mkExampleBatch,
        allocateLoop, allocStep, saleInsert, applyAllocationInventory,
        adjustBatchOilCost, updateCakeLot, updateBatch, freshSaleId,
        findBatch, List.find?, min_def]
    · norm_num

theorem fifo_allocation_correct_witness :
    (availableLots exampleState exampleSale).Pairwise dateLe ∧
    (∃ outs, (add_material_sale exampleState exampleSale).2 = .ok outs ∧
       outs.map (fun o => (o.batch_id, o.quantity)) =
         fifoSpecAllocs exampleSale.quantity_sold
           (availableLots exampleState exampleSale) ∧
       (outs.map (·.quantity)).sum = exampleSale.quantity_sold) ∧
    ((add_material_sale exampleState exampleSale).1.cake_lots.map
        (·.quantity_remaining) = [0, 2, 5] ∧
     ∃ exouts, (add_material_sale exampleState exampleSale).2 = .ok exouts ∧
       exouts.map (fun o => (o.batch_id, o.quantity)) = [(1, 5), (2, 3)]) :=
  fifo_allocation_correct exampleState exampleSale (by norm_num [exampleSale])
    (by
      have havail : availableLots exampleState exampleSale =
          [⟨1, 1, 5, 10, "Groundnut", 10⟩, ⟨2, 2, 5, 10, "Groundnut", 12⟩,
           ⟨3, 3, 5, 10, "Groundnut", 15⟩] := rfl
      rw [havail]
      norm_num [exampleSale])

theorem receive_order_invariant_weighted_avg_witness :
    ∃ r r' : InventoryRow, receiveSeq 5 [(2, 10), (3, 20)] [] = [r] ∧
      receiveSeq 5 [(3, 20), (2, 10)] [] = [r'] ∧
      r.weighted_avg_cost =
        (([((2 : ℚ), (10 : ℚ)), (3, 20)]).map (fun p => p.1 * p.2)).sum /
          (([((2 : ℚ), (10 : ℚ)), (3, 20)]).map Prod.fst).sum ∧
      r'.weighted_avg_cost = r.weighted_avg_cost :=
  receive_order_invariant_weighted_avg 5 [(2, 10), (3, 20)] [(3, 20), (2, 10)]
    (by decide) (by decide) (List.Perm.swap _ _ _)

lemma findBatch_updateBatch_ne (bid id : Nat) (f : Batch → Batch)
    (hf : ∀ b, (f b).batch_id = b.batch_id) (bs : List Batch)
    (h : bid ≠ id) :
    findBatch bid (updateBatch id f bs) = findBatch bid bs := by
  induction bs with
  | nil => rfl
  | cons b tl ih =>
    unfold updateBatch findBatch at *
    rw [List.map_cons]
    by_cases hb : b.batch_id = id
    · rw [if_pos hb]
      rw [List.find?_cons_of_neg _ (by simp [hf b, hb]; omega),
        List.find?_cons_of_neg _ (by simp [hb]; omega)]
      exact ih
    · rw [if_neg hb]
      by_cases hd : b.batch_id = bid
      · rw [List.find?_cons_of_pos _ (by simp [hd]),
          List.find?_cons_of_pos _ (by simp [hd])]
      · rw [List.find?_cons_of_neg _ (by simp [hd]),
          List.find?_cons_of_neg _ (by simp [hd])]
        exact ih

lemma findBatch_updateBatch_self (id : Nat) (f : Batch → Batch)
    (hf : ∀ b, (f b).batch_id = b.batch_id) (bs : List Batch) :
    findBatch id (updateBatch id f bs) = (findBatch id bs).map f := by
  induction bs with
  | nil => rfl
  | cons b tl ih =>
    unfold updateBatch findBatch at *
    rw [List.map_cons]
    by_cases hb : b.batch_id = id
    · rw [if_pos hb]
      rw [List.find?_cons_of_pos _ (by simp [hf b, hb]),
        List.find?_cons_of_pos _ (by simp [hb])]
      rfl
    · rw [if_neg hb]
      rw [List.find?_cons_of_neg _ (by simp [hb]),
        List.find?_cons_of_neg _ (by simp [hb])]
      exact ih

lemma static_eq_fields {b1 b2 : Batch} (h : staticOf b1 = staticOf b2) :
    b1.total_production_cost = b2.total_production_cost ∧
    b1.oil_cake_yield = b2.oil_cake_yield ∧
    b1.cake_estimated_rate = b2.cake_estimated_rate ∧
    b1.sludge_yield = b2.sludge_yield ∧
    b1.sludge_estimated_rate = b2.sludge_estimated_rate := by
  unfold staticOf at h
  exact ⟨congrArg (·.1) h, congrArg (·.2.1) h, congrArg (·.2.2.1) h,
    congrArg (·.2.2.2.1) h, congrArg (·.2.2.2.2) h⟩

lemma estOf_congr {btype : String} {b1 b2 : Batch}
    (h : staticOf b1 = staticOf b2) : estOf btype b1 = estOf btype b2 := by
  obtain ⟨_, _, e3, _, e5⟩ := static_eq_fields h
  by_cases hb : btype = "oil_cake"
  · simp only [estOf, if_pos hb, e3]
  · simp only [estOf, if_neg hb, e5]

lemma findBatch_map_static (id : Nat) (f : Batch → Batch)
    (hf : ∀ b, (f b).batch_id = b.batch_id)
    (hs : ∀ b, staticOf (f b) = staticOf b) (bs : List Batch) (bid : Nat) :
    (findBatch bid (updateBatch id f bs)).map staticOf =
      (findBatch bid bs).map staticOf := by
  by_cases h : bid = id
  · subst h
    rw [findBatch_updateBatch_self _ _ hf]
    cases hfb : findBatch bid bs with
    | none => rfl
    | some b => simp [hs b]
  · rw [findBatch_updateBatch_ne _ _ _ hf _ h]

lemma applyAlloc_findBatch_ne (btype : String) (lot : AvailLot) (a r : ℚ)
    (s : SalesState) (bid : Nat) (hne : bid ≠ lot.batch_id) :
    findBatch bid (applyAllocationInventory btype lot a r s).batches =
      findBatch bid s.batches := by
  unfold applyAllocationInventory
  by_cases hb : btype = "oil_cake"
  · rw [if_pos hb]
    exact findBatch_updateBatch_ne _ _ _ (by intro b; rfl) _ hne
  · rw [if_neg hb]
    exact findBatch_updateBatch_ne _ _ _ (by intro b; rfl) _ hne

lemma applyAlloc_static (btype : String) (lot : AvailLot) (a r : ℚ)
    (s : SalesState) (bid : Nat) :
    (findBatch bid (applyAllocationInventory btype lot a r s).batches).map
        staticOf = (findBatch bid s.batches).map staticOf := by
  unfold applyAllocationInventory
  by_cases hb : btype = "oil_cake"
  · rw [if_pos hb]
    exact findBatch_map_static _ _ (by intro b; rfl) (by intro b; rfl) _ _
  · rw [if_neg hb]
    exact findBatch_map_static _ _ (by intro b; rfl) (by intro b; rfl) _ _

lemma adjust_findBatch_ne (btype : String) (a r : ℚ) (id : Nat)
    (s : SalesState) (bid : Nat) (hne : bid ≠ id) :
    findBatch bid (adjustBatchOilCost btype a r id s).batches =
      findBatch bid s.batches := by
  unfold adjustBatchOilCost
  cases hbd : findBatch id s.batches with
  | none => simp only [hbd]
  | some bd =>
    simp only [hbd]
    exact findBatch_updateBatch_ne _ _ _ (by intro b; rfl) _ hne

lemma adjust_static (btype : String) (a r : ℚ) (id : Nat) (s : SalesState)
    (bid : Nat) :
    (findBatch bid (adjustBatchOilCost btype a r id s).batches).map
        staticOf = (findBatch bid s.batches).map staticOf := by
  unfold adjustBatchOilCost
  cases hbd : findBatch id s.batches with
  | none => simp only [hbd]
  | some bd =>
    simp only [hbd]
    exact findBatch_map_static _ _ (by intro b; rfl) (by intro b; rfl) _ _

lemma allocStep_findBatch_ne (btype : String) (sale_id : Nat) (rate : ℚ)
    (lot : AvailLot) (a : ℚ) (s : SalesState) (bid : Nat)
    (hne : bid ≠ lot.batch_id) :
    findBatch bid (allocStep btype sale_id rate lot a s).batches =
      findBatch bid s.batches := by
  unfold allocStep
  exact (adjust_findBatch_ne _ _ _ _ _ _ hne).trans
    (applyAlloc_findBatch_ne _ _ _ _ _ _ hne)

lemma allocStep_static (btype : String) (sale_id : Nat) (rate : ℚ)
    (lot : AvailLot) (a : ℚ) (s : SalesState) (bid : Nat) :
    (findBatch bid (allocStep btype sale_id rate lot a s).batches).map
        staticOf = (findBatch bid s.batches).map staticOf := by
  unfold allocStep
  exact (adjust_static _ _ _ _ _ _).trans (applyAlloc_static _ _ _ _ _ _)

lemma allocStep_none (btype : String) (sale_id : Nat) (rate : ℚ)
    (lot : AvailLot) (a : ℚ) (s : SalesState)
    (h : findBatch lot.batch_id s.batches = none) :
    findBatch lot.batch_id (allocStep btype sale_id rate lot a s).batches =
      none := by
  have h2 := allocStep_static btype sale_id rate lot a s lot.batch_id
  rw [h] at h2
  cases hfb : findBatch lot.batch_id
      (allocStep btype sale_id rate lot a s).batches with
  | none => rfl
  | some b =>
    rw [hfb] at h2
    simp at h2

lemma applyAlloc_some (btype : String) (lot : AvailLot) (a r : ℚ)
    (s : SalesState) (b0 : Batch)
    (h : findBatch lot.batch_id s.batches = some b0) :
    ∃ bd, findBatch lot.batch_id
        (applyAllocationInventory btype lot a r s).batches = some bd ∧
      staticOf bd = staticOf b0 := by
  unfold applyAllocationInventory
  by_cases hb : btype = "oil_cake"
  · rw [if_pos hb]
    refine ⟨{ b0 with
                cake_sold_quantity := b0.cake_sold_quantity + a,
                cake_actual_rate := r }, ?_, rfl⟩
    rw [findBatch_updateBatch_self _ _ (by intro b; rfl), h]
    rfl
  · rw [if_neg hb]
    refine ⟨{ b0 with
                sludge_sold_quantity := b0.sludge_sold_quantity + a,
                sludge_actual_rate := r }, ?_, rfl⟩
    rw [findBatch_updateBatch_self _ _ (by intro b; rfl), h]
    rfl

lemma adjust_formula (btype : String) (a r : ℚ) (id : Nat) (s : SalesState)
    (bd : Batch) (hbd : findBatch id s.batches = some bd) :
    ∃ bd', findBatch id (adjustBatchOilCost btype a r id s).batches =
        some bd' ∧ staticOf bd' = staticOf bd ∧
      bd'.net_oil_cost = bd.total_production_cost -
        bd.oil_cake_yield * bd.cake_estimated_rate -
        bd.sludge_yield * bd.sludge_estimated_rate +
        a * (estOf btype bd - r) := by
  unfold adjustBatchOilCost
  simp only [hbd]
  refine ⟨{ bd with
              net_oil_cost := bd.total_production_cost -
                bd.oil_cake_yield * bd.cake_estimated_rate -
                bd.sludge_yield * bd.sludge_estimated_rate +
                (if btype = "oil_cake" then
                  bd.oil_cake_yield * bd.cake_estimated_rate -
                    (a * r +
                      (bd.oil_cake_yield - a) * bd.cake_estimated_rate)
                else
                  bd.sludge_yield * bd.sludge_estimated_rate -
                    (a * r +
                      (bd.sludge_yield - a) * bd.sludge_estimated_rate)),
              oil_cost_per_kg := if bd.oil_yield > 0 then
                (bd.total_production_cost -
                  bd.oil_cake_yield * bd.cake_estimated_rate -
                  bd.sludge_yield * bd.sludge_estimated_rate +
                  (if btype = "oil_cake" then
                    bd.oil_cake_yield * bd.cake_estimated_rate -
                      (a * r +
                        (bd.oil_cake_yield - a) * bd.cake_estimated_rate)
                  else
                    bd.sludge_yield * bd.sludge_estimated_rate -
                      (a * r +
                        (bd.sludge_yield - a) *
                          bd.sludge_estimated_rate))) / bd.oil_yield
                else 0 }, ?_, rfl, ?_⟩
  · rw [findBatch_updateBatch_self _ _ (by intro b; rfl), hbd]
    rfl
  · show bd.total_production_cost -
        bd.oil_cake_yield * bd.cake_estimated_rate -
        bd.sludge_yield * bd.sludge_estimated_rate +
        (if btype = "oil_cake" then
          bd.oil_cake_yield * bd.cake_estimated_rate -
            (a * r + (bd.oil_cake_yield - a) * bd.cake_estimated_rate)
        else
          bd.sludge_yield * bd.sludge_estimated_rate -
            (a * r + (bd.sludge_yield - a) * bd.sludge_estimated_rate)) = _
    by_cases hb : btype = "oil_cake"
    · simp only [estOf, if_pos hb]
      ring
    · simp only [estOf, if_neg hb]
      ring

lemma allocStep_formula (btype : String) (sale_id : Nat) (rate : ℚ)
    (lot : AvailLot) (a : ℚ) (s : SalesState) (b0 : Batch)
    (h : findBatch lot.batch_id s.batches = some b0) :
    ∃ bd', findBatch lot.batch_id
        (allocStep btype sale_id rate lot a s).batches = some bd' ∧
      staticOf bd' = staticOf b0 ∧
      bd'.net_oil_cost = b0.total_production_cost -
        b0.oil_cake_yield * b0.cake_estimated_rate -
        b0.sludge_yield * b0.sludge_estimated_rate +
        a * (estOf btype b0 - rate) := by
  unfold allocStep
  have h1 : findBatch lot.batch_id
      ({ s with allocations := s.allocations ++
        [{ sale_id := sale_id, batch_id := lot.batch_id,
           quantity_allocated := a,
           original_estimate_rate := lot.estimated_rate,
           actual_sale_rate := rate,
           cost_adjustment_per_kg := lot.estimated_rate - rate,
           oil_cost_adjustment := a * lot.estimated_rate - a * rate }] }
        : SalesState).batches = some b0 := h
  obtain ⟨bd, hmid, hstat⟩ := applyAlloc_some btype lot a rate _ b0 h1
  obtain ⟨bd', ha, hstat', hnet⟩ := adjust_formula btype a rate
    lot.batch_id _ bd hmid
  refine ⟨bd', ha, hstat'.trans hstat, ?_⟩
  rw [hnet]
  obtain ⟨e1, e2, e3, e4, e5⟩ := static_eq_fields hstat
  rw [estOf_congr hstat, e1, e2, e3, e4, e5]

lemma allocateLoop_cons_fst (btype : String) (sale_id : Nat) (rate : ℚ)
    (lot : AvailLot) (rest : List AvailLot) (q : ℚ) (s : SalesState)
    (hq : ¬ q ≤ 0) :
    (allocateLoop btype sale_id rate (lot :: rest) q s).1 =
      (allocateLoop btype sale_id rate rest
        (q - min q lot.quantity_remaining)
        (allocStep btype sale_id rate lot (min q lot.quantity_remaining)
          s)).1 := by
  conv_lhs => rw [allocateLoop]
  rw [if_neg hq]

lemma allocateLoop_cons_snd (btype : String) (sale_id : Nat) (rate : ℚ)
    (lot : AvailLot) (rest : List AvailLot) (q : ℚ) (s : SalesState)
    (hq : ¬ q ≤ 0) :
    (allocateLoop btype sale_id rate (lot :: rest) q s).2 =
      { batch_id := lot.batch_id,
        quantity := min q lot.quantity_remaining,
        adjustment := min q lot.quantity_remaining * lot.estimated_rate -
          min q lot.quantity_remaining * rate } ::
      (allocateLoop btype sale_id rate rest
        (q - min q lot.quantity_remaining)
        (allocStep btype sale_id rate lot (min q lot.quantity_remaining)
          s)).2 := by
  conv_lhs => rw [allocateLoop]
  rw [if_neg hq]

lemma allocateLoop_findBatch_untouched (btype : String) (sale_id : Nat)
    (rate : ℚ) :
    ∀ (lots : List AvailLot) (bid : Nat),
      bid ∉ lots.map (·.batch_id) →
      ∀ (q : ℚ) (s : SalesState),
        findBatch bid (allocateLoop btype sale_id rate lots q s).1.batches
          = findBatch bid s.batches := by
  intro lots
  induction lots with
  | nil => intro bid _ q s; rfl
  | cons lot rest ih =>
    intro bid hbid q s
    rw [List.map_cons, List.mem_cons] at hbid
    push_neg at hbid
    obtain ⟨hne, hrest⟩ := hbid
    by_cases hq : q ≤ 0
    · unfold allocateLoop
      rw [if_pos hq]
    · rw [allocateLoop_cons_fst btype sale_id rate lot rest q s hq,
        ih bid hrest, allocStep_findBatch_ne _ _ _ _ _ _ _ hne]

lemma allocateLoop_static_all (btype : String) (sale_id : Nat) (rate : ℚ) :
    ∀ (lots : List AvailLot) (q : ℚ) (s : SalesState) (bid : Nat),
      (findBatch bid
          (allocateLoop btype sale_id rate lots q s).1.batches).map staticOf
        = (findBatch bid s.batches).map staticOf := by
  intro lots
  induction lots with
  | nil => intro q s bid; rfl
  | cons lot rest ih =>
    intro q s bid
    by_cases hq : q ≤ 0
    · unfold allocateLoop
      rw [if_pos hq]
    · rw [allocateLoop_cons_fst btype sale_id rate lot rest q s hq, ih,
        allocStep_static]

lemma allocateLoop_net_formula (btype : String) (sale_id : Nat) (rate : ℚ) :
    ∀ (lots : List AvailLot), (lots.map (·.batch_id)).Nodup →
      ∀ (q : ℚ) (s : SalesState) (o : AllocOut),
        o ∈ (allocateLoop btype sale_id rate lots q s).2 →
        ∀ b', findBatch o.batch_id
            (allocateLoop btype sale_id rate lots q s).1.batches =
              some b' →
          b'.net_oil_cost = b'.total_production_cost -
            b'.oil_cake_yield * b'.cake_estimated_rate -
            b'.sludge_yield * b'.sludge_estimated_rate +
            o.quantity * (estOf btype b' - rate) := by
  intro lots
  induction lots with
  | nil =>
    intro _ q s o ho
    simp [allocateLoop] at ho
  | cons lot rest ih =>
    intro hnd q s o ho b' hb'
    rw [List.map_cons, List.nodup_cons] at hnd
    obtain ⟨hlot, hnd'⟩ := hnd
    by_cases hq : q ≤ 0
    · unfold allocateLoop at ho
      rw [if_pos hq] at ho
      simp at ho
    · rw [allocateLoop_cons_snd btype sale_id rate lot rest q s hq] at ho
      rw [allocateLoop_cons_fst btype sale_id rate lot rest q s hq] at hb'
      rcases List.mem_cons.mp ho with rfl | ho'
      · rw [allocateLoop_findBatch_untouched btype sale_id rate rest
          lot.batch_id hlot] at hb'
        cases hb0 : findBatch lot.batch_id s.batches with
        | none =>
          rw [allocStep_none btype sale_id rate lot _ s hb0] at hb'
          exact Option.noConfusion hb'
        | some b0 =>
          obtain ⟨bd', h1, hstat, hnet⟩ := allocStep_formula btype sale_id
            rate lot (min q lot.quantity_remaining) s b0 hb0
          rw [h1] at hb'
          injection hb' with h2
          subst h2
          obtain ⟨e1, e2, e3, e4, e5⟩ := static_eq_fields hstat
          rw [hnet, estOf_congr hstat, e1, e2, e3, e4, e5]
      · exact ih hnd' _ _ o ho' b' hb'

lemma add_material_sale_ok (s : SalesState) (inp : SaleInput)
    (s' : SalesState) (outs : List AllocOut)
    (h : add_material_sale s inp = (s', .ok outs)) :
    s' = (allocateLoop inp.byproduct_type (freshSaleId s.sales)
        inp.sale_rate (availableLots s inp) inp.quantity_sold
        (saleInsert s inp)).1 ∧
    outs = (allocateLoop inp.byproduct_type (freshSaleId s.sales)
        inp.sale_rate (availableLots s inp) inp.quantity_sold
        (saleInsert s inp)).2 := by
  simp only [add_material_sale] at h
  by_cases h1 : inp.quantity_sold ≤ 0
  · rw [if_pos h1] at h
    exact absurd (congrArg Prod.snd h) (by simp)
  · rw [if_neg h1] at h
    by_cases h2 : ((availableLots s inp).map (·.quantity_remaining)).sum <
        inp.quantity_sold
    · rw [if_pos h2] at h
      exact absurd (congrArg Prod.snd h) (by simp)
    · rw [if_neg h2] at h
      have hfst := congrArg Prod.fst h
      have hsnd := congrArg Prod.snd h
      simp only [Prod.fst, Prod.snd] at hfst hsnd
      refine ⟨hfst.symm, ?_⟩
      have hsnd' : (Except.ok
          (allocateLoop inp.byproduct_type (freshSaleId s.sales)
            inp.sale_rate (availableLots s inp) inp.quantity_sold
            (saleInsert s inp)).2 : Except SaleErr (List AllocOut)) =
          Except.ok outs := hsnd
      injection hsnd' with h3
      exact h3.symm

lemma retroSale1_result : add_material_sale retroState retroSale1 =
    (retroStateAfter1, .ok [⟨1, 50, 400⟩]) := by
  have havail : availableLots retroState retroSale1 =
      [⟨1, 1, 100, 10, "Groundnut", 5⟩] := rfl
  simp only [add_material_sale, saleInsert, havail]
  norm_num [retroState, retroSale1, retroLot, retroBatch, retroStateAfter1,
    allocateLoop, allocStep, applyAllocationInventory, adjustBatchOilCost,
    updateCakeLot, updateBatch, freshSaleId, findBatch, List.find?,
    min_def]

lemma retroSale2_result : add_material_sale retroStateAfter1 retroSale2 =
    (retroStateAfter2, .ok [⟨1, 10, 10⟩]) := by
  have havail : availableLots retroStateAfter1 retroSale2 =
      [⟨1, 1, 50, 10, "Groundnut", 5⟩] := rfl
  simp only [add_material_sale, saleInsert, havail]
  norm_num [retroStateAfter1, retroStateAfter2, retroSale2, retroBatch,
    allocateLoop, allocStep, applyAllocationInventory, adjustBatchOilCost,
    updateCakeLot, updateBatch, freshSaleId, findBatch, List.find?,
    min_def]

lemma retroSaleAbove_result :
    add_material_sale retroState retroSaleAbove =
      (retroStateAbove, .ok [⟨1, 50, -100⟩]) := by
  have havail : availableLots retroState retroSaleAbove =
      [⟨1, 1, 100, 10, "Groundnut", 5⟩] := rfl
  simp only [add_material_sale, saleInsert, havail]
  norm_num [retroState, retroSaleAbove, retroLot, retroBatch,
    retroStateAbove, allocateLoop, allocStep, applyAllocationInventory,
    adjustBatchOilCost, updateCakeLot, updateBatch, freshSaleId, findBatch,
    List.find?, min_def]

/-- C5 (counterexample): after a first sale below estimate has raised
`net_oil_cost` to 400, a second sale of 10 units at rate 9 — still strictly
below the lot's estimated rate 10 — makes `net_oil_cost` fall to 10: a
below-estimate sale does not always increase the owning batch's net cost,
because each allocation recomputes it from the baseline, discarding the
previous adjustment. -/
theorem retro_adjustment_sign_counterexample :
    retroSale2.sale_rate < retroLot.estimated_rate ∧
    (findBatch 1 (add_material_sale retroState retroSale1).1.batches).map
      (·.net_oil_cost) = some 400 ∧
    (findBatch 1 (add_material_sale (add_material_sale retroState
      retroSale1).1 retroSale2).1.batches).map (·.net_oil_cost) =
      some 10 ∧
    (10 : ℚ) < 400 := by
  refine ⟨by norm_num [retroSale2, retroLot], ?_, ?_, by norm_num⟩
  · rw [retroSale1_result]
    rfl
  · rw [retroSale1_result]
    dsimp only
    rw [retroSale2_result]
    rfl

/-- C5 (amended): the sign law holds relative to the batch's baseline net
cost.  After a successful oil-cake/sludge sale, an allocated batch whose
pre-sale `net_oil_cost` equalled the baseline
`total_production_cost - cake_yield*cake_est - sludge_yield*sludge_est`
(true for the first sale touching a batch) strictly decreases its
`net_oil_cost` when the sale rate exceeds the batch's estimated rate,
strictly increases it when below, and keeps it unchanged when equal. -/
theorem retro_adjustment_sign_vs_baseline (s : SalesState)
    (inp : SaleInput)
    (hnd : ((availableLots s inp).map (·.batch_id)).Nodup)
    (s' : SalesState) (outs : List AllocOut)
    (h : add_material_sale s inp = (s', .ok outs))
    (o : AllocOut) (ho : o ∈ outs) (ha : 0 < o.quantity)
    (b b' : Batch)
    (hb : findBatch o.batch_id s.batches = some b)
    (hb' : findBatch o.batch_id s'.batches = some b')
    (hbase : b.net_oil_cost = batchBaselineNetCost b) :
    (estOf inp.byproduct_type b < inp.sale_rate →
       b'.net_oil_cost < b.net_oil_cost) ∧
    (inp.sale_rate < estOf inp.byproduct_type b →
       b.net_oil_cost < b'.net_oil_cost) ∧
    (inp.sale_rate = estOf inp.byproduct_type b →
       b'.net_oil_cost = b.net_oil_cost) := by
  obtain ⟨hs', houts⟩ := add_material_sale_ok s inp s' outs h
  subst hs'
  subst houts
  have hnet := allocateLoop_net_formula inp.byproduct_type
    (freshSaleId s.sales) inp.sale_rate (availableLots s inp) hnd
    inp.quantity_sold (saleInsert s inp) o ho b' hb'
  have hstatic := allocateLoop_static_all inp.byproduct_type
    (freshSaleId s.sales) inp.sale_rate (availableLots s inp)
    inp.quantity_sold (saleInsert s inp) o.batch_id
  have hsb : findBatch o.batch_id (saleInsert s inp).batches = some b := hb
  rw [hb', hsb] at hstatic
  simp only [Option.map_some'] at hstatic
  injection hstatic with hstat
  obtain ⟨e1, e2, e3, e4, e5⟩ := static_eq_fields hstat
  have he : estOf inp.byproduct_type b' = estOf inp.byproduct_type b :=
    estOf_congr hstat
  have hnet' : b'.net_oil_cost = b.net_oil_cost +
      o.quantity * (estOf inp.byproduct_type b - inp.sale_rate) := by
    rw [hnet, hbase]
    unfold batchBaselineNetCost
    rw [e1, e2, e3, e4, e5, he]
  refine ⟨?_, ?_, ?_⟩
  · intro hr
    have hneg : o.quantity *
        (estOf inp.byproduct_type b - inp.sale_rate) < 0 :=
      mul_neg_of_pos_of_neg ha (by linarith)
    linarith [hnet']
  · intro hr
    have hpos : 0 < o.quantity *
        (estOf inp.byproduct_type b - inp.sale_rate) :=
      mul_pos ha (by linarith)
    linarith [hnet']
  · intro hr
    rw [hnet', hr]
    ring

theorem retro_adjustment_sign_vs_baseline_witness :
    (estOf retroSaleAbove.byproduct_type retroBatch <
       retroSaleAbove.sale_rate →
     ({ retroBatch with
          net_oil_cost := (-100 : ℚ), oil_cost_per_kg := (-1 : ℚ),
          cake_sold_quantity := 50,
          cake_actual_rate := 12 } : Batch).net_oil_cost <
       retroBatch.net_oil_cost) ∧
    (retroSaleAbove.sale_rate <
       estOf retroSaleAbove.byproduct_type retroBatch →
     retroBatch.net_oil_cost <
       ({ retroBatch with
            net_oil_cost := (-100 : ℚ), oil_cost_per_kg := (-1 : ℚ),
            cake_sold_quantity := 50,
            cake_actual_rate := 12 } : Batch).net_oil_cost) ∧
    (retroSaleAbove.sale_rate =
       estOf retroSaleAbove.byproduct_type retroBatch →
     ({ retroBatch with
          net_oil_cost := (-100 : ℚ), oil_cost_per_kg := (-1 : ℚ),
          cake_sold_quantity := 50,
          cake_actual_rate := 12 } : Batch).net_oil_cost =
       retroBatch.net_oil_cost) :=
  retro_adjustment_sign_vs_baseline retroState retroSaleAbove (by decide)
    retroStateAbove [⟨1, 50, -100⟩] retroSaleAbove_result
    ⟨1, 50, -100⟩ (by decide) (by norm_num) retroBatch _ rfl rfl
    (by norm_num [retroBatch, batchBaselineNetCost])

/-- C10: after any successful oil-cake or sludge sale, each allocated
batch's stored `net_oil_cost` equals the baseline (production cost minus
the FULL estimated cake and sludge revenues) plus only the current
allocation's adjustment `qty * (estimated_rate - sale_rate)`; consequently
a second sale against the same batch discards the first sale's adjustment
(concretely: 400 after the first sale, then 10 — not 410 — after the
second). -/
theorem net_cost_reflects_only_current_allocation (s : SalesState)
    (inp : SaleInput)
    (hnd : ((availableLots s inp).map (·.batch_id)).Nodup)
    (s' : SalesState) (outs : List AllocOut)
    (h : add_material_sale s inp = (s', .ok outs)) :
    (∀ o ∈ outs, ∀ b', findBatch o.batch_id s'.batches = some b' →
       b'.net_oil_cost = b'.total_production_cost -
         b'.oil_cake_yield * b'.cake_estimated_rate -
         b'.sludge_yield * b'.sludge_estimated_rate +
         o.quantity * (estOf inp.byproduct_type b' - inp.sale_rate)) ∧
    ((findBatch 1 (add_material_sale retroState retroSale1).1.batches).map
       (·.net_oil_cost) = some 400 ∧
     (findBatch 1 (add_material_sale (add_material_sale retroState
       retroSale1).1 retroSale2).1.batches).map (·.net_oil_cost) =
       some 10) := by
  obtain ⟨hs', houts⟩ := add_material_sale_ok s inp s' outs h
  subst hs'
  subst houts
  constructor
  · intro o ho b' hb'
    exact allocateLoop_net_formula inp.byproduct_type
      (freshSaleId s.sales) inp.sale_rate (availableLots s inp) hnd
      inp.quantity_sold (saleInsert s inp) o ho b' hb'
  · constructor
    · rw [retroSale1_result]
      rfl
    · rw [retroSale1_result]
      dsimp only
      rw [retroSale2_result]
      rfl

theorem net_cost_reflects_only_current_allocation_witness :
    (∀ o ∈ [(⟨1, 50, 400⟩ : AllocOut)], ∀ b',
       findBatch o.batch_id retroStateAfter1.batches = some b' →
       b'.net_oil_cost = b'.total_production_cost -
         b'.oil_cake_yield * b'.cake_estimated_rate -
         b'.sludge_yield * b'.sludge_estimated_rate +
         o.quantity * (estOf retroSale1.byproduct_type b' -
           retroSale1.sale_rate)) ∧
    ((findBatch 1 (add_material_sale retroState retroSale1).1.batches).map
       (·.net_oil_cost) = some 400 ∧
     (findBatch 1 (add_material_sale (add_material_sale retroState
       retroSale1).1 retroSale2).1.batches).map (·.net_oil_cost) =
       some 10) :=
  net_cost_reflects_only_current_allocation retroState retroSale1
    (by decide) retroStateAfter1 [⟨1, 50, 400⟩] retroSale1_result

end Puvi
